import Mathlib

/-!
# StyleHub backend: orders, stock and reviews

A shallow embedding of the order controller (`createOrder`, `getOrder`,
`updateOrderStatus`, `cancelOrder`), the payment controller (`handlePaymentSuccess`,
`handlePaymentFailure`, `handleRefund`), the `Order` and `Product` models, the review
handler `addReview` and the `rateLimiter` middleware.

Conventions of the embedding

* A JavaScript `Number` is an exact rational (`ℚ`) in the handlers. Counts (`limit`)
  are natural numbers and `Date.now()` times are integers.
* An `ObjectId` is a natural number.
* The document store is a pair of lists (products, orders); `findById` returns the
  first document carrying the id.
* Everything a handler obtains from an external service (payment gateway, mailer,
  object store, id generator) is read from an `Env` record, so that every handler is a
  pure function `Env → Store → request → Response Order × Store`.
* `save()` runs the schema validators of the model (`enum`, `min`, `max`) and throws when
  one fails; a thrown error is caught by the handler's `catch` block.
* The positional operator of the stock update is bound by one of the two array conditions
  of the filter (`Positional`); nothing below assumes which one.
* The pricing lines are also read with the result of every arithmetic operation rounded
  (`loopPricing`, `reducePricing`); with `roundDouble` this is the arithmetic of doubles,
  which decides whether the tax is exactly 18/100 of the subtotal.
-/

namespace StyleHub

/-! ## Data model -/

/-- Selector `{size, color}` carried by a request item and by an order line item. -/
structure VariantSel where
  size : String
  color : String
deriving DecidableEq, Repr

/-- Element of `productSchema.variants`. -/
structure Variant where
  size : String
  color : String
  stock : ℚ
  sku : String
deriving DecidableEq, Repr

/-- Element of `productSchema.reviews`. -/
structure Review where
  user : Nat
  rating : ℚ
  comment : String
  images : List String
deriving DecidableEq, Repr

/-- The `ratings` sub-document of a product. -/
structure Ratings where
  average : ℚ
  count : Nat
deriving DecidableEq, Repr

/-- Product document (the fields the handlers below read or write). -/
structure Product where
  _id : Nat
  name : String
  price : ℚ
  variants : List Variant
  ratings : Ratings
  reviews : List Review
deriving DecidableEq, Repr

/-- Element of `req.body.items` of `createOrder`. The `price` is whatever the client
sent; the handler never reads it. -/
structure ReqItem where
  product : Nat
  variant : VariantSel
  quantity : ℚ
  price : ℚ
deriving DecidableEq, Repr

/-- Element of `orderSchema.items`. -/
structure OrderItem where
  product : Nat
  variant : VariantSel
  quantity : ℚ
  price : ℚ
deriving DecidableEq, Repr

/-- The `paymentInfo` sub-document of an order (`clientSecret` is attached by
`createOrder` for card payments). -/
structure PaymentInfo where
  method : String
  status : String
  transactionId : Option String
  clientSecret : Option String
deriving DecidableEq, Repr

/-- The `refund` record `handleRefund` attaches to `paymentDetails`. -/
structure RefundInfo where
  refundId : String
  amount : ℚ
  reason : String
deriving DecidableEq, Repr

/-- The `paymentDetails` object written by the payment controller. -/
structure PaymentDetails where
  paymentIntentId : Option String
  paymentMethod : Option String
  amount : Option ℚ
  currency : Option String
  error : Option String
  refund : Option RefundInfo
deriving DecidableEq, Repr

/-- Order document. `paymentStatus` and `paymentDetails` are the two properties the
payment controller assigns; `createOrder` leaves them undefined. -/
structure Order where
  _id : Nat
  user : Nat
  items : List OrderItem
  paymentInfo : PaymentInfo
  status : String
  subtotal : ℚ
  tax : ℚ
  shippingCost : ℚ
  discount : ℚ
  total : ℚ
  couponCode : Option String
  cancelReason : Option String
  paymentStatus : Option String
  paymentDetails : Option PaymentDetails
deriving DecidableEq, Repr

/-- Which condition of the stock filter binds the positional operator `$`. The filter
`{ _id, 'variants.size': s, 'variants.color': c }` puts two independent conditions on the
`variants` array (there is no `$elemMatch`), and `'variants.$.stock'` addresses the
index found by one of them: the first variant of size `s`, or the first variant of
colour `c`. -/
inductive Positional where
  | bySize
  | byColor
deriving DecidableEq, Repr

/-- The document store: the `products` and the `orders` collections, and the way the
engine binds the positional operator. -/
structure Store where
  products : List Product
  orders : List Order
  positional : Positional
deriving DecidableEq, Repr

/-- JSON answer of a handler: `res.status(code).json(...)` with
`status: 'success'` and the document in `data`, or `status: 'error'` and a message. -/
inductive Response (α : Type) where
  | success (code : Nat) (data : α)
  | error (code : Nat) (message : String)
deriving DecidableEq, Repr

/-- True for an answer with `status: 'error'`. -/
def Response.isError {α : Type} : Response α → Bool
  | .success _ _ => false
  | .error _ _ => true

/-- What the payment gateway returns for `paymentIntents.retrieve`. -/
structure PaymentIntent where
  status : String
  payment_method : String
  amount : ℚ
  currency : String
deriving DecidableEq, Repr

/-- What the payment gateway returns for `refunds.create`. -/
structure Refund where
  id : String
  amount : ℚ
deriving DecidableEq, Repr

/-- Outcomes of the external calls a handler makes; `none` stands for a call that
throws. `newOrderId` is the `_id` that `new Order(...)` generates, `uploadToS3` maps an
uploaded file to the `Location` the object store returns for it. -/
structure Env where
  newOrderId : Nat
  createIntent : Option String
  retrieveIntent : Option PaymentIntent
  createRefund : Option Refund
  uploadToS3 : String → Option String
  emailOk : Bool

/-- The caller attached to the request by the auth middleware (`req.user`). -/
structure User where
  _id : Nat
  role : String
  email : String
deriving DecidableEq, Repr

/-- Body of a `createOrder` request together with the caller. -/
structure CreateOrderReq where
  user : User
  items : List ReqItem
  paymentMethod : String
  couponCode : Option String
deriving DecidableEq, Repr

/-! ## Store primitives -/

/-- Lookup `Product.findById`. -/
def findProduct (products : List Product) (id : Nat) : Option Product :=
  products.find? (fun p => p._id == id)

/-- Lookup `Order.findById`. -/
def findOrder (orders : List Order) (id : Nat) : Option Order :=
  orders.find? (fun o => o._id == id)

/-- The predicate `v => v.size === item.variant.size && v.color === item.variant.color`. -/
def variantMatches (sel : VariantSel) (v : Variant) : Bool :=
  v.size == sel.size && v.color == sel.color

/-- The array condition that binds `$`: `'variants.size': sel.size` under `bySize`,
`'variants.color': sel.color` under `byColor`. -/
def boundBy (rule : Positional) (sel : VariantSel) (v : Variant) : Bool :=
  match rule with
  | .bySize => v.size == sel.size
  | .byColor => v.color == sel.color

/-- The filter `{ _id: id, 'variants.size': sel.size, 'variants.color': sel.color }` on a
product document: the id is `id`, some variant has the size and some variant (the same or
another one) has the colour. -/
def filterMatches (id : Nat) (sel : VariantSel) (p : Product) : Bool :=
  p._id == id && p.variants.any (fun v => v.size == sel.size)
    && p.variants.any (fun v => v.color == sel.color)

/-- Update `$inc: { 'variants.$.stock': delta }` on the variants array: the stock of the
first variant that satisfies the binding condition grows by `delta`. -/
def incVariantStock (rule : Positional) : List Variant → VariantSel → ℚ → List Variant
  | [], _, _ => []
  | v :: vs, sel, delta =>
    if boundBy rule sel v then { v with stock := v.stock + delta } :: vs
    else v :: incVariantStock rule vs sel delta

/-- Update `Product.findOneAndUpdate({_id, 'variants.size', 'variants.color'}, {$inc: ...})`:
the first product that matches the filter gets the increment at the position `$`; when
no product matches, nothing is written. -/
def findOneAndUpdateStock (rule : Positional) :
    List Product → Nat → VariantSel → ℚ → List Product
  | [], _, _, _ => []
  | p :: ps, id, sel, delta =>
    if filterMatches id sel p then
      { p with variants := incVariantStock rule p.variants sel delta } :: ps
    else p :: findOneAndUpdateStock rule ps id sel delta

/-- Replace the stored document that has the id of `o` (the first one) by `o`. -/
def replaceOrder : List Order → Order → List Order
  | [], _ => []
  | x :: xs, o => if x._id == o._id then o :: xs else x :: replaceOrder xs o

/-! ## Order model (`models/Order.js`) -/

/-- The `enum` of `orderSchema.status`. -/
def orderStatusEnum : List String :=
  ["pending", "confirmed", "processing", "shipped", "delivered", "cancelled", "returned"]

/-- The `enum` of `orderSchema.paymentInfo.method`. -/
def paymentMethodEnum : List String := ["card", "upi", "wallet", "cod"]

/-- The `enum` of `orderSchema.paymentInfo.status`. -/
def paymentStatusEnum : List String := ["pending", "paid", "failed"]

/-- Validators run by `save()` on a new order: `quantity` has `min: 1`, and the three
string paths are restricted by their `enum`. -/
def validateOrder (o : Order) : Bool :=
  o.items.all (fun i => decide (1 ≤ i.quantity))
    && decide (o.paymentInfo.method ∈ paymentMethodEnum)
    && decide (o.paymentInfo.status ∈ paymentStatusEnum)
    && decide (o.status ∈ orderStatusEnum)

/-- Method `save()` of a loaded order whose `status` was reassigned: the `enum` validator of
that path runs; on success the stored document is replaced. -/
def saveOrder (s : Store) (o : Order) : Option Store :=
  if o.status ∈ orderStatusEnum then some { s with orders := replaceOrder s.orders o }
  else none

/-- Method `orderSchema.methods.calculateTotals`. -/
def calculateTotals (o : Order) : Order :=
  let subtotal := o.items.foldl (fun sum item => sum + item.price * item.quantity) 0
  let tax := subtotal * 0.18
  { o with subtotal := subtotal, tax := tax,
           total := subtotal + tax + o.shippingCost - o.discount }

/-! ## Order controller (`controllers/orderController.js`) -/

/-- Answer of `createOrder` when an item fails the stock check. -/
def insufficientStock (product : Product) : Response Order :=
  .error 400 ("Insufficient stock for product " ++ product.name)

/-- The validation loop `for (const item of items)` of `createOrder`, with the two
variables it updates (`subtotal`, `orderItems`) as accumulators. An early `return` of the
handler is the `Except.error` answer. -/
def checkItems (products : List Product) :
    List ReqItem → ℚ → List OrderItem → Except (Response Order) (ℚ × List OrderItem)
  | [], subtotal, orderItems => .ok (subtotal, orderItems)
  | item :: rest, subtotal, orderItems =>
    match findProduct products item.product with
    | none => .error (.error 400 ("Product " ++ toString item.product ++ " not found"))
    | some product =>
      match product.variants.find? (variantMatches item.variant) with
      | none => .error (insufficientStock product)
      | some variant =>
        if variant.stock < item.quantity then .error (insufficientStock product)
        else
          checkItems products rest (subtotal + product.price * item.quantity)
            (orderItems ++ [{ product := product._id, variant := item.variant,
                              quantity := item.quantity, price := product.price }])

/-- The loop `// Update product stock` of `createOrder`. -/
def decrementStock (rule : Positional) (products : List Product) (items : List OrderItem) :
    List Product :=
  items.foldl
    (fun ps item => findOneAndUpdateStock rule ps item.product item.variant (-item.quantity))
    products

/-- The loop `// Restore product stock` of `cancelOrder`. -/
def restoreStock (rule : Positional) (products : List Product) (items : List OrderItem) :
    List Product :=
  items.foldl
    (fun ps item => findOneAndUpdateStock rule ps item.product item.variant item.quantity)
    products

/-- The document `new Order({...})` that `createOrder` builds from the validated items
(schema defaults: `status` and `paymentInfo.status` are `'pending'`). -/
def buildOrder (env : Env) (req : CreateOrderReq) (subtotal : ℚ) (orderItems : List OrderItem) :
    Order :=
  let tax := subtotal * 0.18
  let shippingCost : ℚ := if subtotal > 1000 then 0 else 100
  let discount : ℚ := 0
  { _id := env.newOrderId
    user := req.user._id
    items := orderItems
    paymentInfo := { method := req.paymentMethod, status := "pending",
                     transactionId := none, clientSecret := none }
    status := "pending"
    subtotal := subtotal
    tax := tax
    shippingCost := shippingCost
    discount := discount
    total := subtotal + tax + shippingCost - discount
    couponCode := req.couponCode
    cancelReason := none
    paymentStatus := none
    paymentDetails := none }

/-- The step `// Handle payment` of `createOrder`: for a card payment the gateway is
asked for a payment intent (the call may throw) and its client secret is attached. -/
def attachPayment (env : Env) (paymentMethod : String) (order : Order) : Option Order :=
  if paymentMethod == "card" then
    env.createIntent.map (fun secret =>
      { order with paymentInfo := { order.paymentInfo with clientSecret := some secret } })
  else some order

/-- Handler `createOrder`. -/
def createOrder (env : Env) (s : Store) (req : CreateOrderReq) : Response Order × Store :=
  match checkItems s.products req.items 0 [] with
  | .error r => (r, s)
  | .ok (subtotal, orderItems) =>
    match attachPayment env req.paymentMethod (buildOrder env req subtotal orderItems) with
    | none => (.error 500 "payment intent could not be created", s)
    | some order =>
      if validateOrder order then
        let s1 : Store := { s with orders := s.orders ++ [order] }
        let s2 : Store :=
          { s1 with products := decrementStock s1.positional s1.products orderItems }
        if env.emailOk then (.success 201 order, s2)
        else (.error 500 "email could not be sent", s2)
      else (.error 500 "Order validation failed", s)

/-! ## In-memory documents handed to `save()` by the lifecycle handlers -/

/-- The order after the assignments of `cancelOrder`
(`order.status = 'cancelled'; order.cancelReason = reason`). -/
def cancelledOrder (reason : Option String) (order : Order) : Order :=
  { order with status := "cancelled", cancelReason := reason }

/-- The order after the assignments of `handlePaymentSuccess`
(`order.status = 'paid'; order.paymentStatus = 'completed'; order.paymentDetails = ...`). -/
def paidOrder (paymentIntentId : String) (paymentIntent : PaymentIntent) (order : Order) :
    Order :=
  { order with
    status := "paid"
    paymentStatus := some "completed"
    paymentDetails := some
      { paymentIntentId := some paymentIntentId
        paymentMethod := some paymentIntent.payment_method
        amount := some (paymentIntent.amount / 100)
        currency := some paymentIntent.currency
        error := none
        refund := none } }

/-- The order after the assignments of `handlePaymentFailure`
(`order.status = 'payment_failed'; order.paymentStatus = 'failed'; ...`). -/
def paymentFailedOrder (message : String) (order : Order) : Order :=
  { order with
    status := "payment_failed"
    paymentStatus := some "failed"
    paymentDetails := some
      { paymentIntentId := none, paymentMethod := none, amount := none, currency := none
        error := some message, refund := none } }

/-- The order after the assignments of `handleRefund`
(`order.status = 'refunded'; order.paymentStatus = 'refunded'; order.paymentDetails.refund = ...`). -/
def refundedOrder (details : PaymentDetails) (refund : Refund) (reason : String)
    (order : Order) : Order :=
  { order with
    status := "refunded"
    paymentStatus := some "refunded"
    paymentDetails := some { details with
      refund := some { refundId := refund.id, amount := refund.amount / 100,
                       reason := reason } } }

/-- Handler `updateOrderStatus`. -/
def updateOrderStatus (env : Env) (s : Store) (user : User) (id : Nat) (status : String) :
    Response Order × Store :=
  match findOrder s.orders id with
  | none => (.error 404 "Order not found", s)
  | some order =>
    if user.role != "admin" && user.role != "seller" then
      (.error 403 "Not authorized to update order status", s)
    else
      let order := { order with status := status }
      match saveOrder s order with
      | none => (.error 500 "Order validation failed", s)
      | some s1 =>
        if env.emailOk then (.success 200 order, s1)
        else (.error 500 "email could not be sent", s1)

/-- Handler `cancelOrder`. -/
def cancelOrder (env : Env) (s : Store) (id : Nat) (reason : Option String) :
    Response Order × Store :=
  match findOrder s.orders id with
  | none => (.error 404 "Order not found", s)
  | some order =>
    if !(["pending", "confirmed"].contains order.status) then
      (.error 400 "Order cannot be cancelled at this stage", s)
    else
      let order := cancelledOrder reason order
      match saveOrder s order with
      | none => (.error 500 "Order validation failed", s)
      | some s1 =>
        let s2 : Store :=
          { s1 with products := restoreStock s1.positional s1.products order.items }
        if env.emailOk then (.success 200 order, s2)
        else (.error 500 "email could not be sent", s2)

/-- The Express request `cancelOrder` receives: `req.user` (set by `authenticate`),
`req.params.id` and `req.body.reason`. -/
structure CancelOrderReq where
  user : User
  id : Nat
  reason : Option String
deriving DecidableEq, Repr

/-- Handler `cancelOrder` as the route calls it, on the whole request: it destructures
`req.body.reason`, looks the order up by `req.params.id` and never reads `req.user`
(the e-mail goes to `order.user.email`). -/
def cancelOrderRoute (env : Env) (s : Store) (req : CancelOrderReq) : Response Order × Store :=
  cancelOrder env s req.id req.reason

/-- Handler `getOrder`. The two `populate` calls only decorate the answer; the owner's
user document is taken to exist (no handler of this code base deletes a user), so that
`order.user._id` is the stored owner id. -/
def getOrder (s : Store) (user : User) (id : Nat) : Response Order × Store :=
  match findOrder s.orders id with
  | none => (.error 404 "Order not found", s)
  | some order =>
    if order.user != user._id && user.role != "admin" then
      (.error 403 "Not authorized to view this order", s)
    else (.success 200 order, s)

/-! ## Payment controller (`controllers/paymentController.js`) -/

/-- Handler `handlePaymentSuccess`. -/
def handlePaymentSuccess (env : Env) (s : Store) (paymentIntentId : String) (orderId : Nat) :
    Response Order × Store :=
  match env.retrieveIntent with
  | none => (.error 400 "payment intent could not be retrieved", s)
  | some paymentIntent =>
    if paymentIntent.status != "succeeded" then (.error 400 "Payment not successful", s)
    else
      match findOrder s.orders orderId with
      | none => (.error 400 "Order not found", s)
      | some order =>
        let order := paidOrder paymentIntentId paymentIntent order
        match saveOrder s order with
        | none => (.error 400 "Order validation failed", s)
        | some s1 =>
          if env.emailOk then (.success 200 order, s1)
          else (.error 400 "email could not be sent", s1)

/-- Handler `handlePaymentFailure`; `error` is `req.body.error.message`, and `none` stands
for a body without `error` (reading `.message` then throws). -/
def handlePaymentFailure (env : Env) (s : Store) (orderId : Nat) (error : Option String) :
    Response Order × Store :=
  match findOrder s.orders orderId with
  | none => (.error 400 "Order not found", s)
  | some order =>
    match error with
    | none => (.error 400 "Cannot read properties of undefined", s)
    | some message =>
      let order := paymentFailedOrder message order
      match saveOrder s order with
      | none => (.error 400 "Order validation failed", s)
      | some s1 =>
        if env.emailOk then (.success 200 order, s1)
        else (.error 400 "email could not be sent", s1)

/-- Handler `handleRefund`. Line 172 reads `order.paymentDetails.paymentIntentId` on the
document loaded by `Order.findById`; `orderSchema` declares no `paymentDetails` path, so
the property is undefined on every loaded document and the read throws before
`stripe.refunds.create` is called. The statements after it (the assignments rendered by
`refundedOrder`, `save()`, the e-mail) are never reached. -/
def handleRefund (_env : Env) (s : Store) (orderId : Nat) (_reason : String) :
    Response Order × Store :=
  match findOrder s.orders orderId with
  | none => (.error 400 "Order not found", s)
  | some _ => (.error 400 "Cannot read properties of undefined", s)

/-! ## Product model and review handler (`models/Product.js`, `productController.js`) -/

/-- Method `productSchema.methods.updateAverageRating`. -/
def updateAverageRating (p : Product) : Product :=
  if p.reviews.length = 0 then { p with ratings := { average := 0, count := 0 } }
  else
    let totalRating := p.reviews.foldl (fun sum review => sum + review.rating) 0
    { p with ratings := { average := totalRating / p.reviews.length,
                          count := p.reviews.length } }

/-- Validators run by `save()` on a product after a review was pushed: the new review's
`rating` has `min: 1, max: 5` and `ratings.average` has `min: 0, max: 5`. -/
def validateReviewed (p : Product) (review : Review) : Bool :=
  decide (1 ≤ review.rating) && decide (review.rating ≤ 5)
    && decide (0 ≤ p.ratings.average) && decide (p.ratings.average ≤ 5)

/-- Replace the stored product that has the id of `p` (the first one) by `p`. -/
def replaceProduct : List Product → Product → List Product
  | [], _ => []
  | x :: xs, p => if x._id == p._id then p :: xs else x :: replaceProduct xs p

/-- The loop `for (const file of req.files)` of `addReview`: every file is uploaded and
the returned locations are collected; an upload that throws aborts the handler. -/
def uploadImages (env : Env) : List String → Option (List String)
  | [] => some []
  | file :: rest =>
    match env.uploadToS3 file with
    | none => none
    | some location =>
      match uploadImages env rest with
      | none => none
      | some images => some (location :: images)

/-- Handler `addReview`. -/
def addReview (env : Env) (s : Store) (user : User) (id : Nat) (rating : ℚ)
    (comment : String) (files : List String) : Response Product × Store :=
  match findProduct s.products id with
  | none => (.error 404 "Product not found", s)
  | some product =>
    match product.reviews.find? (fun review => review.user == user._id) with
    | some _ => (.error 400 "You have already reviewed this product", s)
    | none =>
      match uploadImages env files with
      | none => (.error 500 "upload failed", s)
      | some images =>
        let review : Review :=
          { user := user._id, rating := rating, comment := comment, images := images }
        let product := updateAverageRating { product with reviews := product.reviews ++ [review] }
        if validateReviewed product review then
          (.success 200 product, { s with products := replaceProduct s.products product })
        else (.error 500 "Product validation failed", s)

/-! ## Rate limiting middleware (`middleware/auth.js`) -/

/-- The `Map` named `requests` of `rateLimiter`: for every ip the recorded `timestamps`,
and `none` when `requests.has(ip)` is false. Times are milliseconds (`Date.now()`). -/
def RequestMap : Type := String → Option (List Int)

/-- The map `new Map()`. -/
def RequestMap.empty : RequestMap := fun _ => none

/-- The map after `requests.set(ip, { timestamps })`. -/
def RequestMap.set (requests : RequestMap) (ip : String) (timestamps : List Int) : RequestMap :=
  fun key => if key = ip then some timestamps else requests key

/-- The middleware returned by `rateLimiter(limit, timeWindow)`, applied to a request
from `ip` arriving at `now = Date.now()`, with the closure variable `requests` passed
explicitly. The Boolean is `true` when `next()` is called and `false` for the 429 answer. -/
def rateLimiter (limit : Nat) (timeWindow : Int) (requests : RequestMap) (ip : String)
    (now : Int) : Bool × RequestMap :=
  match requests ip with
  | some timestamps =>
    let windowStart := now - timeWindow
    let timestamps := timestamps.filter (fun time => decide (time > windowStart))
    if timestamps.length ≥ limit then (false, requests.set ip timestamps)
    else (true, requests.set ip (timestamps ++ [now]))
  | none => (true, requests.set ip [now])

/-- A request as the limiter sees it: the caller's ip and the arrival time. -/
structure Hit where
  ip : String
  now : Int
deriving DecidableEq, Repr

/-- One request served by the middleware: the map is updated and the request is appended
to the list of admitted requests when `next()` was called. -/
def serve (limit : Nat) (timeWindow : Int) (state : RequestMap × List Hit) (hit : Hit) :
    RequestMap × List Hit :=
  let result := rateLimiter limit timeWindow state.1 hit.ip hit.now
  (result.2, if result.1 then state.2 ++ [hit] else state.2)

/-- A sequence of requests served in order by one middleware instance, starting from the
empty map: the final map and the admitted requests. -/
def runLimiter (limit : Nat) (timeWindow : Int) (hits : List Hit) : RequestMap × List Hit :=
  hits.foldl (serve limit timeWindow) (RequestMap.empty, [])

/-- Arrival times of the admitted requests of `ip`, in order. -/
def admittedTimes (limit : Nat) (timeWindow : Int) (hits : List Hit) (ip : String) : List Int :=
  ((runLimiter limit timeWindow hits).2.filter (fun h => h.ip = ip)).map (fun h => h.now)

/-- Arrival times of all requests of `ip`, in order. -/
def arrivalTimes (hits : List Hit) (ip : String) : List Int :=
  (hits.filter (fun h => h.ip = ip)).map (fun h => h.now)

/-! ## IEEE 754 double arithmetic and the pricing lines read in it -/

/-- The integer part of the binary logarithm of `n` for `0 < n`, computed with fuel. -/
def log2Floor : Nat → Nat → Nat
  | 0, _ => 0
  | fuel + 1, n => if n < 2 then 0 else log2Floor fuel (n / 2) + 1

/-- Nearest integer to `n / d`, a tie going to the even neighbour. -/
def roundHalfEven (n d : Nat) : Nat :=
  let q := n / d
  let r := n % d
  if 2 * r < d then q else if d < 2 * r then q + 1 else if q % 2 = 0 then q else q + 1

/-- Binary exponent of `n / d` for `0 < n`, `0 < d`: the `e` with `2 ^ e ≤ n / d < 2 ^ (e + 1)`. -/
def exponentOf (n d : Nat) : Int :=
  let e0 : Int := (log2Floor n n : Int) - (log2Floor d d : Int)
  if (if 0 ≤ e0 then d * 2 ^ e0.toNat ≤ n else d ≤ n * 2 ^ (-e0).toNat) then e0 else e0 - 1

/-- The 53-bit significand of the double nearest to `n / d`: `n / d` scaled into
`[2 ^ 52, 2 ^ 53)` and rounded to the nearest integer, ties to even. -/
def significandOf (n d : Nat) : Nat :=
  let s : Int := 52 - exponentOf n d
  if 0 ≤ s then roundHalfEven (n * 2 ^ s.toNat) d else roundHalfEven n (d * 2 ^ (-s).toNat)

/-- The double nearest to the positive ratio `n / d`. -/
def roundRatio (n d : Nat) : ℚ :=
  (significandOf n d : ℚ) * 2 ^ (exponentOf n d - 52)

/-- Rounding of IEEE 754 binary64 (round to nearest, ties to even): the double nearest to
`x`, for `x` in the normal range of doubles (overflow to `Infinity` and gradual underflow
are not modelled; every amount below is far inside the range). -/
def roundDouble (x : ℚ) : ℚ :=
  if x = 0 then 0
  else if 0 < x then roundRatio x.num.natAbs x.den
  else -roundRatio x.num.natAbs x.den

/-- The pricing lines of `createOrder` (`let subtotal = 0`, the accumulation
`subtotal += product.price * item.quantity` of the loop, `const tax = subtotal * 0.18`)
over the validated line items, with the result of every arithmetic operation and the
literal `0.18` rounded by `rnd`: `rnd = id` is the exact arithmetic used elsewhere in this
file, `rnd = roundDouble` is the arithmetic of the JavaScript engine. Returns
`(subtotal, tax)`. -/
def loopPricing (rnd : ℚ → ℚ) : List OrderItem → ℚ → ℚ × ℚ
  | [], subtotal => (subtotal, rnd (subtotal * rnd 0.18))
  | item :: rest, subtotal =>
    loopPricing rnd rest (rnd (subtotal + rnd (item.price * item.quantity)))

/-- The first two lines of `calculateTotals` (`this.items.reduce(...)`,
`this.tax = this.subtotal * 0.18`) with the same rounding. Returns `(subtotal, tax)`. -/
def reducePricing (rnd : ℚ → ℚ) (items : List OrderItem) : ℚ × ℚ :=
  let subtotal := items.foldl (fun sum item => rnd (sum + rnd (item.price * item.quantity))) 0
  (subtotal, rnd (subtotal * rnd 0.18))

/-! ## Specification vocabulary -/

/-- The five money fields of an order. -/
def moneyFields (o : Order) : ℚ × ℚ × ℚ × ℚ × ℚ :=
  (o.subtotal, o.tax, o.shippingCost, o.discount, o.total)

/-- The totals invariant of an order. -/
def totalsOk (o : Order) : Prop :=
  o.total = o.subtotal + o.tax + o.shippingCost - o.discount

/-- Every stored order satisfies the totals invariant. -/
def StoreTotalsOk (s : Store) : Prop := ∀ o ∈ s.orders, totalsOk o

/-- A request item passed the validation loop against `products` and became the line
item `li`. -/
def ItemChecked (products : List Product) (it : ReqItem) (li : OrderItem) : Prop :=
  ∃ product variant,
    findProduct products it.product = some product ∧
    product.variants.find? (variantMatches it.variant) = some variant ∧
    it.quantity ≤ variant.stock ∧
    li = { product := product._id, variant := it.variant,
           quantity := it.quantity, price := product.price }

/-- Sum of `price * quantity` over line items, accumulated from the left as the code
does. -/
def lineTotal (items : List OrderItem) : ℚ :=
  items.foldl (fun sum item => sum + item.price * item.quantity) 0

/-- The request item fails the availability check of `createOrder`: its product is
missing, or no variant of the product has exactly its size and colour, or that variant
holds less stock than the requested quantity. -/
def ItemRejected (products : List Product) (it : ReqItem) : Prop :=
  match findProduct products it.product with
  | none => True
  | some product =>
    match product.variants.find? (variantMatches it.variant) with
    | none => True
    | some variant => variant.stock < it.quantity

/-- Stock of the variant `(id, sel)` as the availability check reads it:
`Product.findById(id)` followed by `variants.find(...)`; `none` when there is no such
product or no such variant. -/
def stockOf (products : List Product) (id : Nat) (sel : VariantSel) : Option ℚ :=
  (findProduct products id).bind
    (fun p => (p.variants.find? (variantMatches sel)).map (fun v => v.stock))

/-- Sum of the quantities of the line items that select the variant `(id, sel)`. -/
def orderedQuantity (items : List OrderItem) (id : Nat) (sel : VariantSel) : ℚ :=
  ((items.filter (fun i => i.product == id && i.variant == sel)).map (fun i => i.quantity)).sum

/-- Every variant of every product holds a non-negative stock. -/
def StockNonneg (products : List Product) : Prop :=
  ∀ p ∈ products, ∀ v ∈ p.variants, 0 ≤ v.stock

/-! ## Sample data -/

/-- A product priced 500 with the single variant (M, red) and two pieces in stock. -/
def shirt : Product :=
  { _id := 1, name := "Shirt", price := 500
    variants := [{ size := "M", color := "red", stock := 2, sku := "SH-M-RED" }]
    ratings := { average := 0, count := 0 }, reviews := [] }

/-- A catalog holding `shirt` and no order. -/
def shop : Store := { products := [shirt], orders := [], positional := .bySize }

/-- An environment in which every external call succeeds. -/
def calm : Env :=
  { newOrderId := 1, createIntent := some "cs_1", retrieveIntent := none
    createRefund := none, uploadToS3 := fun file => some file, emailOk := true }

/-- A customer. -/
def alice : User := { _id := 7, role := "customer", email := "alice@example.com" }

/-- The selector (M, red). -/
def mRed : VariantSel := { size := "M", color := "red" }

/-- A cash-on-delivery order for `shirt` (M, red) in the given quantities, one request
item per quantity. -/
def shirtReq (quantities : List ℚ) : CreateOrderReq :=
  { user := alice
    items := quantities.map (fun q => { product := 1, variant := mRed, quantity := q, price := 1 })
    paymentMethod := "cod", couponCode := none }

/-- The line item for `q` shirts (M, red). -/
def shirtLine (q : ℚ) : OrderItem := { product := 1, variant := mRed, quantity := q, price := 500 }

/-- The order `createOrder` builds for two shirts (M, red). -/
def shirtOrder : Order := buildOrder calm (shirtReq [2]) 1000 [shirtLine 2]

/-- The shop after that order was placed: the order is stored and the stock is 0. -/
def shopSold : Store :=
  { products := [{ shirt with variants :=
      [{ size := "M", color := "red", stock := 0, sku := "SH-M-RED" }] }]
    orders := [shirtOrder]
    positional := .bySize }

/-- An environment in which the mailer fails and every other external call succeeds. -/
def mailDown : Env := { calm with emailOk := false }

/-- The shop after two line items of two shirts each were ordered at once: the stock of
(M, red) is -2. -/
def shopOversold : List Product :=
  [{ shirt with variants := [{ size := "M", color := "red", stock := -2, sku := "SH-M-RED" }] }]

/-- The order `createOrder` builds for two line items of two shirts (M, red) each. -/
def doubleOrder : Order := buildOrder calm (shirtReq [2, 2]) 2000 [shirtLine 2, shirtLine 2]

/-- The sold-out shop with the order already shipped. -/
def shopShipped : Store :=
  { shopSold with orders := [{ shirtOrder with status := "shipped" }] }

/-- The shirt after `alice` gave it four stars. -/
def shirtReviewed : Product :=
  { shirt with
    reviews := [{ user := 7, rating := 4, comment := "fits well", images := [] }]
    ratings := { average := 4, count := 1 } }

/-- A catalog holding the reviewed shirt. -/
def shopReviewed : Store :=
  { products := [shirtReviewed], orders := [], positional := .bySize }

/-- Mean of the ratings of a review list, as a rational: their sum divided by their
number. -/
def meanRating (reviews : List Review) : ℚ :=
  (reviews.map (fun r => r.rating)).sum / reviews.length

/-- The review `alice` writes in the witnesses: five stars, no picture. -/
def fiveStars : Review := { user := 7, rating := 5, comment := "great", images := [] }

/-- The shirt after `alice` gave it five stars as its first review. -/
def shirtFiveStars : Product :=
  { shirt with reviews := [fiveStars], ratings := { average := 5, count := 1 } }

/-- A payment intent the gateway reports as paid in full for `shirtOrder`. -/
def intentSucceeded : PaymentIntent :=
  { status := "succeeded", payment_method := "pm_card_visa", amount := 128000, currency := "inr" }

/-- A payment intent the gateway reports as still waiting for a payment method. -/
def intentPending : PaymentIntent :=
  { intentSucceeded with status := "requires_payment_method" }

/-- An environment whose gateway reports the payment intent as succeeded and accepts
refunds. -/
def gatewayPaid : Env :=
  { calm with retrieveIntent := some intentSucceeded
              createRefund := some { id := "re_1", amount := 128000 } }

/-- An environment whose gateway reports the payment intent as not yet paid. -/
def gatewayUnpaid : Env := { calm with retrieveIntent := some intentPending }

/-- An administrator. -/
def root : User := { _id := 1, role := "admin", email := "root@example.com" }

/-- The times later than `now - timeWindow`, as the middleware filters them. -/
def inWindow (timeWindow now : Int) (times : List Int) : List Int :=
  times.filter (fun time => decide (time > now - timeWindow))

/-- Number of the given times that fall in the interval `(t - timeWindow, t]`. -/
def countIn (timeWindow t : Int) (times : List Int) : Nat :=
  (times.filter (fun time => decide (t - timeWindow < time ∧ time ≤ t))).length

/-- What holds for one ip after any sequence of requests in which the arrival times of
that ip do not decrease: the recorded timestamps are admitted ones, they agree with the
admitted ones on every window that starts no earlier than the last arrival, and no
interval `(t - timeWindow, t]` holds more than `limit` admitted requests. -/
def LimiterInv (limit : Nat) (timeWindow : Int) (hits : List Hit) (ip : String) : Prop :=
  (match (runLimiter limit timeWindow hits).1 ip with
    | none => arrivalTimes hits ip = [] ∧ admittedTimes limit timeWindow hits ip = []
    | some recorded =>
      recorded.Sublist (admittedTimes limit timeWindow hits ip) ∧
      ∀ now, (∀ t ∈ arrivalTimes hits ip, t ≤ now) →
        inWindow timeWindow now recorded
          = inWindow timeWindow now (admittedTimes limit timeWindow hits ip)) ∧
  ∀ t, countIn timeWindow t (admittedTimes limit timeWindow hits ip) ≤ limit

/-- Three requests of one ip at times 0, 100 and 200. -/
def burst : List Hit :=
  [{ ip := "10.0.0.1", now := 0 }, { ip := "10.0.0.1", now := 100 },
   { ip := "10.0.0.1", now := 200 }]

/-- A customer who owns no order of the sample shop. -/
def mallory : User := { _id := 99, role := "customer", email := "mallory@example.com" }

/-- The selector (M, blue). -/
def mBlue : VariantSel := { size := "M", color := "blue" }

/-- The selector (S, blue). -/
def sBlue : VariantSel := { size := "S", color := "blue" }

/-- A catalog holding one jacket (product 2, price 800) in the sizes S and M and the
colours red and blue, with the given stock of (S, red), (S, blue), (M, red), (M, blue). -/
def jackets (sRed sBlue mRed mBlue : ℚ) : List Product :=
  [{ _id := 2, name := "Jacket", price := 800
     variants :=
       [{ size := "S", color := "red", stock := sRed, sku := "JK-S-RED" },
        { size := "S", color := "blue", stock := sBlue, sku := "JK-S-BLUE" },
        { size := "M", color := "red", stock := mRed, sku := "JK-M-RED" },
        { size := "M", color := "blue", stock := mBlue, sku := "JK-M-BLUE" }]
     ratings := { average := 0, count := 0 }, reviews := [] }]

/-- A cash-on-delivery request for two jackets (M, blue). -/
def jacketReq : CreateOrderReq :=
  { user := alice
    items := [{ product := 2, variant := mBlue, quantity := 2, price := 800 }]
    paymentMethod := "cod", couponCode := none }

/-- The line item for two jackets (M, blue). -/
def jacketLine : OrderItem := { product := 2, variant := mBlue, quantity := 2, price := 800 }

/-- The order `createOrder` builds for `jacketReq`. -/
def jacketOrder : Order := buildOrder calm jacketReq 1600 [jacketLine]

/-- The boutique: the jacket with five pieces of every variant, no order, and the given
binding of the positional operator. -/
def boutique (rule : Positional) : Store :=
  { products := jackets 5 5 5 5, orders := [], positional := rule }

/-- The boutique holding `jacketOrder` and the given stock. -/
def boutiqueSold (rule : Positional) (sRed sBlue mRed mBlue : ℚ) : Store :=
  { products := jackets sRed sBlue mRed mBlue, orders := [jacketOrder], positional := rule }

/-- A line item of one piece at the price 10. -/
def tenLine : OrderItem := { product := 1, variant := mRed, quantity := 1, price := 10 }

/-- The double nearest to 0.18, which is 3242591731706757 / 2 ^ 54. -/
def rateDouble : ℚ := 3242591731706757 / 18014398509481984

/-- The double 1.7999999999999998, which is 8106479329266892 / 2 ^ 52: the double just
below the one nearest to 1.8. -/
def taxOfTen : ℚ := 2026619832316723 / 1125899906842624

/-! ## Lemmas on the store primitives -/

theorem totalsOk_of_moneyFields {o o' : Order} (h : moneyFields o' = moneyFields o) :
    totalsOk o' ↔ totalsOk o := by
  simp only [moneyFields, Prod.mk.injEq] at h
  obtain ⟨h1, h2, h3, h4, h5⟩ := h
  simp [totalsOk, h1, h2, h3, h4, h5]

theorem storeTotalsOk_of_map {s s' : Store}
    (h : s'.orders.map moneyFields = s.orders.map moneyFields) (hs : StoreTotalsOk s) :
    StoreTotalsOk s' := by
  have key : ∀ (l l' : List Order), l'.map moneyFields = l.map moneyFields →
      (∀ o ∈ l, totalsOk o) → ∀ o ∈ l', totalsOk o := by
    intro l
    induction l with
    | nil =>
      intro l' hl _ o ho
      simp at hl
      simp [hl] at ho
    | cons x xs ih =>
      intro l' hl hx o ho
      cases l' with
      | nil => simp at ho
      | cons y ys =>
        simp only [List.map_cons, List.cons.injEq] at hl
        rcases List.mem_cons.mp ho with rfl | ho'
        · exact (totalsOk_of_moneyFields hl.1).2 (hx x (List.mem_cons_self _ _))
        · exact ih ys hl.2 (fun o ho => hx o (List.mem_cons_of_mem _ ho)) o ho'
  exact key s.orders s'.orders h hs

theorem replaceOrder_map_money (orders : List Order) (id : Nat) (o o' : Order)
    (hf : findOrder orders id = some o) (hid : o'._id = o._id)
    (hm : moneyFields o' = moneyFields o) :
    (replaceOrder orders o').map moneyFields = orders.map moneyFields := by
  induction orders with
  | nil => simp [findOrder] at hf
  | cons x xs ih =>
    simp only [findOrder, List.find?_cons] at hf
    by_cases hx : x._id = id
    · simp only [hx, beq_self_eq_true, Option.some.injEq] at hf
      subst hf
      simp [replaceOrder, hid, hm]
    · have hx' : (x._id == id) = false := by simpa using hx
      simp only [hx'] at hf
      have hne : ¬ x._id = o'._id := by
        have := List.find?_some hf
        simp only [beq_iff_eq] at this
        rw [hid, this]; exact hx
      simp only [replaceOrder, beq_iff_eq, hne, if_false, List.map_cons, List.cons.injEq, true_and]
      exact ih hf

theorem findOrder_id {orders : List Order} {id : Nat} {o : Order}
    (h : findOrder orders id = some o) : o._id = id := by
  have := List.find?_some h
  simpa using this

/-- A lifecycle handler that only rewrites non-money fields of the found order keeps the
money fields of every stored order. -/
theorem saveOrder_map_money (s s1 : Store) (id : Nat) (o o' : Order)
    (hf : findOrder s.orders id = some o) (hid : o'._id = o._id)
    (hm : moneyFields o' = moneyFields o) (hs : saveOrder s o' = some s1) :
    s1.orders.map moneyFields = s.orders.map moneyFields ∧ s1.products = s.products := by
  unfold saveOrder at hs
  split at hs
  · simp only [Option.some.injEq] at hs
    subst hs
    exact ⟨replaceOrder_map_money s.orders id o o' hf hid hm, rfl⟩
  · simp at hs

/-! ## Lemmas on `createOrder` -/

theorem findProduct_id {products : List Product} {id : Nat} {p : Product}
    (h : findProduct products id = some p) : p._id = id := by
  have := List.find?_some h
  simpa using this

/-- What a successful run of the validation loop returns. -/
theorem checkItems_ok (products : List Product) (items : List ReqItem) :
    ∀ (sub : ℚ) (acc : List OrderItem) (sub' : ℚ) (acc' : List OrderItem),
      checkItems products items sub acc = .ok (sub', acc') →
      ∃ new, acc' = acc ++ new ∧ List.Forall₂ (ItemChecked products) items new ∧
        sub' = new.foldl (fun sum item => sum + item.price * item.quantity) sub := by
  induction items with
  | nil =>
    intro sub acc sub' acc' h
    simp only [checkItems, Except.ok.injEq, Prod.mk.injEq] at h
    exact ⟨[], by simp [h.2], List.Forall₂.nil, by simp [h.1]⟩
  | cons it rest ih =>
    intro sub acc sub' acc' h
    unfold checkItems at h
    split at h
    · cases h
    · rename_i product hp
      split at h
      · cases h
      · rename_i variant hv
        split at h
        · cases h
        · rename_i hstock
          obtain ⟨new, hacc, hall, hsub⟩ := ih _ _ _ _ h
          refine ⟨_ :: new, ?_, List.Forall₂.cons ⟨product, variant, hp, hv, not_lt.mp hstock, rfl⟩ hall, ?_⟩
          · simp [hacc]
          · simpa using hsub

/-- The validation loop either returns an error answer or succeeds. -/
theorem checkItems_error (products : List Product) (items : List ReqItem) :
    ∀ (sub : ℚ) (acc : List OrderItem) (r : Response Order),
      checkItems products items sub acc = .error r → r.isError = true := by
  induction items with
  | nil => intro sub acc r h; simp [checkItems] at h
  | cons it rest ih =>
    intro sub acc r h
    unfold checkItems at h
    split at h
    · cases h; rfl
    · split at h
      · cases h; rfl
      · split at h
        · cases h; rfl
        · exact ih _ _ _ h

/-- The store after `createOrder`: untouched with an error answer, or extended by the
validated order with the stock of its line items decremented. -/
theorem createOrder_cases (env : Env) (s : Store) (req : CreateOrderReq) :
    ((createOrder env s req).2 = s ∧ (createOrder env s req).1.isError = true ∧
      ∀ sub items o, checkItems s.products req.items 0 [] = .ok (sub, items) →
        attachPayment env req.paymentMethod (buildOrder env req sub items) = some o →
        validateOrder o = false) ∨
    ∃ sub items o,
      checkItems s.products req.items 0 [] = .ok (sub, items) ∧
      attachPayment env req.paymentMethod (buildOrder env req sub items) = some o ∧
      validateOrder o = true ∧
      (createOrder env s req).2 =
        { s with products := decrementStock s.positional s.products items, orders := s.orders ++ [o] } ∧
      (createOrder env s req).1 =
        (if env.emailOk then .success 201 o else .error 500 "email could not be sent") := by
  unfold createOrder
  split
  · rename_i r hr
    left
    refine ⟨rfl, checkItems_error _ _ _ _ _ hr, ?_⟩
    intro sub items o h
    rw [hr] at h; cases h
  · rename_i sub items hc
    split
    · rename_i ha
      left
      refine ⟨rfl, rfl, ?_⟩
      intro sub' items' o h h'
      rw [hc] at h
      simp only [Except.ok.injEq, Prod.mk.injEq] at h
      rw [← h.1, ← h.2, ha] at h'
      cases h'
    · rename_i o ha
      by_cases hv : validateOrder o = true
      · right
        refine ⟨sub, items, o, hc, ha, hv, ?_, ?_⟩
        · simp only [hv, if_true]
          split <;> rfl
        · simp only [hv, if_true]
          split <;> simp_all
      · left
        simp only [hv]
        refine ⟨rfl, rfl, ?_⟩
        intro sub' items' o' h h'
        rw [hc] at h
        simp only [Except.ok.injEq, Prod.mk.injEq] at h
        rw [← h.1, ← h.2, ha] at h'
        cases h'
        simpa using hv

/-- The payment step leaves everything but `paymentInfo.clientSecret` as built. -/
theorem attachPayment_some {env : Env} {m : String} {o o' : Order}
    (h : attachPayment env m o = some o') :
    o'._id = o._id ∧ o'.items = o.items ∧ o'.status = o.status ∧
      moneyFields o' = moneyFields o ∧ o'.user = o.user ∧ o'.couponCode = o.couponCode := by
  unfold attachPayment at h
  split at h
  · cases hc : env.createIntent with
    | none => simp [hc] at h
    | some secret =>
      simp only [hc, Option.map_some', Option.some.injEq] at h
      subst h
      simp [moneyFields]
  · cases h
    simp

/-! ## Frame lemmas of the lifecycle handlers -/

theorem updateOrderStatus_money (env : Env) (s : Store) (user : User) (id : Nat)
    (status : String) :
    (updateOrderStatus env s user id status).2.orders.map moneyFields
      = s.orders.map moneyFields := by
  unfold updateOrderStatus saveOrder
  cases hf : findOrder s.orders id with
  | none => rfl
  | some o =>
    dsimp only
    split_ifs <;> first | rfl | exact replaceOrder_map_money s.orders id o _ hf rfl rfl

theorem cancelOrder_money (env : Env) (s : Store) (id : Nat) (reason : Option String) :
    (cancelOrder env s id reason).2.orders.map moneyFields = s.orders.map moneyFields := by
  unfold cancelOrder saveOrder
  cases hf : findOrder s.orders id with
  | none => rfl
  | some o =>
    dsimp only
    split_ifs <;> first | rfl | exact replaceOrder_map_money s.orders id o _ hf rfl rfl

theorem handlePaymentSuccess_money (env : Env) (s : Store) (pid : String) (id : Nat) :
    (handlePaymentSuccess env s pid id).2.orders.map moneyFields
      = s.orders.map moneyFields := by
  unfold handlePaymentSuccess saveOrder
  cases env.retrieveIntent with
  | none => rfl
  | some intent =>
    cases hf : findOrder s.orders id with
    | none => dsimp only; split_ifs <;> rfl
    | some o =>
      dsimp only
      split_ifs <;> first | rfl | exact replaceOrder_map_money s.orders id o _ hf rfl rfl

theorem handlePaymentFailure_money (env : Env) (s : Store) (id : Nat) (e : Option String) :
    (handlePaymentFailure env s id e).2.orders.map moneyFields
      = s.orders.map moneyFields := by
  unfold handlePaymentFailure saveOrder
  cases hf : findOrder s.orders id with
  | none => rfl
  | some o =>
    cases e with
    | none => rfl
    | some msg =>
      dsimp only
      split_ifs <;> first | rfl | exact replaceOrder_map_money s.orders id o _ hf rfl rfl

theorem handleRefund_money (env : Env) (s : Store) (id : Nat) (reason : String) :
    (handleRefund env s id reason).2.orders.map moneyFields = s.orders.map moneyFields := by
  unfold handleRefund
  cases findOrder s.orders id <;> rfl

theorem buildOrder_totalsOk (env : Env) (req : CreateOrderReq) (sub : ℚ)
    (items : List OrderItem) : totalsOk (buildOrder env req sub items) := by
  simp [totalsOk, buildOrder]

/-- Everything a `201` answer of `createOrder` tells about the order and the store. -/
theorem createOrder_success {env : Env} {s : Store} {req : CreateOrderReq} {code : Nat}
    {o : Order} (h : (createOrder env s req).1 = .success code o) :
    code = 201 ∧ env.emailOk = true ∧ validateOrder o = true ∧
    List.Forall₂ (ItemChecked s.products) req.items o.items ∧
    o._id = env.newOrderId ∧ o.status = "pending" ∧
    o.subtotal = lineTotal o.items ∧ o.tax = o.subtotal * 0.18 ∧
    o.shippingCost = (if o.subtotal > 1000 then 0 else 100) ∧ o.discount = 0 ∧
    o.total = o.subtotal + o.tax + o.shippingCost - o.discount ∧
    (createOrder env s req).2 =
      { s with products := decrementStock s.positional s.products o.items, orders := s.orders ++ [o] } := by
  rcases createOrder_cases env s req with ⟨_, he, _⟩ | ⟨sub, items, o', hc, ha, hv, hs, hr⟩
  · rw [h] at he; cases he
  · rw [hr] at h
    split at h
    · rename_i hmail
      cases h
      obtain ⟨new, hnew, hall, hsub⟩ := checkItems_ok _ _ _ _ _ _ hc
      simp only [List.nil_append] at hnew
      subst hnew
      obtain ⟨hid, hitems, hstatus, hmoney, _, _⟩ := attachPayment_some ha
      simp only [moneyFields, Prod.mk.injEq] at hmoney
      obtain ⟨h1, h2, h3, h4, h5⟩ := hmoney
      have hb : (buildOrder env req sub items).items = items := rfl
      rw [hb] at hitems
      refine ⟨rfl, hmail, hv, ?_, ?_, ?_, ?_, ?_, ?_, ?_, ?_, ?_⟩
      · rw [hitems]; exact hall
      · rw [hid]; rfl
      · rw [hstatus]; rfl
      · rw [h1, hitems]; exact hsub
      · rw [h2, h1]; rfl
      · rw [h3, h1]; rfl
      · rw [h4]; rfl
      · rw [h5, h1, h2, h3, h4]; rfl
      · rw [hs, hitems]
    · cases h

theorem foldl_lineTotal (items : List OrderItem) (a : ℚ) :
    items.foldl (fun sum item => sum + item.price * item.quantity) a
      = a + (items.map (fun i => i.price * i.quantity)).sum := by
  induction items generalizing a with
  | nil => simp
  | cons i rest ih => simp [ih, add_assoc]

theorem lineTotal_eq_sum (items : List OrderItem) :
    lineTotal items = (items.map (fun i => i.price * i.quantity)).sum := by
  simp [lineTotal, foldl_lineTotal]

/-! ## Evaluation on the sample shop -/

/-- Ordering two shirts in the sample shop: answer 201, the order is stored and the
stock of (M, red) drops from 2 to 0. -/
theorem createOrder_shirt_two :
    createOrder calm shop (shirtReq [2]) = (.success 201 shirtOrder, shopSold) := by
  simp [createOrder, checkItems, findProduct, shop, shirt, shirtReq, mRed, variantMatches,
    attachPayment, validateOrder, calm, decrementStock, findOneAndUpdateStock,
    incVariantStock, filterMatches, boundBy, shirtOrder, shirtLine, buildOrder, paymentMethodEnum, paymentStatusEnum,
    orderStatusEnum, shopSold]
  norm_num

theorem createOrder_shirt_two_response :
    (createOrder calm shop (shirtReq [2])).1 = .success 201 shirtOrder := by
  rw [createOrder_shirt_two]

/-- A rejected item makes the validation loop answer 400, whatever precedes it. -/
theorem checkItems_rejected (products : List Product) (items : List ReqItem)
    (h : ∃ it ∈ items, ItemRejected products it) :
    ∀ (sub : ℚ) (acc : List OrderItem),
      ∃ msg, checkItems products items sub acc = .error (.error 400 msg) := by
  induction items with
  | nil => simp at h
  | cons it rest ih =>
    intro sub acc
    unfold checkItems
    cases hp : findProduct products it.product with
    | none => exact ⟨_, rfl⟩
    | some product =>
      dsimp only
      cases hv : product.variants.find? (variantMatches it.variant) with
      | none => exact ⟨_, rfl⟩
      | some variant =>
        dsimp only
        by_cases hlt : variant.stock < it.quantity
        · rw [if_pos hlt]; exact ⟨_, rfl⟩
        · rw [if_neg hlt]
          apply ih
          obtain ⟨it', hmem, hrej⟩ := h
          rcases List.mem_cons.mp hmem with rfl | hmem'
          · exfalso
            simp only [ItemRejected, hp, hv] at hrej
            exact hlt hrej
          · exact ⟨it', hmem', hrej⟩

/-- Ordering two line items of two shirts each succeeds and drives the stock to -2. -/
theorem createOrder_shirt_double :
    createOrder calm shop (shirtReq [2, 2])
      = (.success 201 doubleOrder, { shop with products := shopOversold, orders := [doubleOrder] }) := by
  simp [createOrder, checkItems, findProduct, shop, shirt, shirtReq, mRed, variantMatches,
    attachPayment, validateOrder, calm, decrementStock, findOneAndUpdateStock,
    incVariantStock, filterMatches, boundBy, doubleOrder, shirtLine, buildOrder, paymentMethodEnum, paymentStatusEnum,
    orderStatusEnum, shopOversold]
  norm_num

theorem shirt_rejected_three : ItemRejected shop.products
    { product := 1, variant := mRed, quantity := 3, price := 1 } := by
  simp [ItemRejected, findProduct, shop, shirt, mRed, variantMatches]
  norm_num

theorem forall₂_mem_right {α β : Type} {R : α → β → Prop} {xs : List α} {ys : List β}
    (h : List.Forall₂ R xs ys) : ∀ y ∈ ys, ∃ x ∈ xs, R x y := by
  induction h with
  | nil => intro y hy; simp at hy
  | cons hr _ ih =>
    intro y hy
    rcases List.mem_cons.mp hy with rfl | hy'
    · exact ⟨_, List.mem_cons_self _ _, hr⟩
    · obtain ⟨x, hx, hxy⟩ := ih y hy'
      exact ⟨x, List.mem_cons_of_mem _ hx, hxy⟩

/-- The stock the availability check saw for a line item it let through. -/
theorem stockOf_of_itemChecked {products : List Product} {it : ReqItem} {li : OrderItem}
    (h : ItemChecked products it li) :
    li.product = it.product ∧ li.variant = it.variant ∧ li.quantity = it.quantity ∧
    (∃ p, findProduct products it.product = some p ∧ li.price = p.price) ∧
    ∃ st, stockOf products li.product li.variant = some st ∧ li.quantity ≤ st := by
  obtain ⟨product, variant, hp, hv, hq, rfl⟩ := h
  have hid := findProduct_id hp
  refine ⟨hid, rfl, rfl, ⟨product, hp, rfl⟩, variant.stock, ?_, hq⟩
  simp only [stockOf, hid, hp, Option.some_bind, hv, Option.map_some']

/-- A further order for one shirt in the sold-out shop is refused and changes nothing. -/
theorem createOrder_shirt_sold_out :
    createOrder calm shopSold (shirtReq [1])
      = (.error 400 "Insufficient stock for product Shirt", shopSold) := by
  simp [createOrder, checkItems, findProduct, shopSold, shirt, shirtReq, mRed, variantMatches,
    insufficientStock]

theorem stockOf_shop : stockOf shop.products 1 mRed = some 2 := by
  simp [stockOf, findProduct, shop, shirt, mRed, variantMatches]

theorem stockOf_shopSold : stockOf shopSold.products 1 mRed = some 0 := by
  simp [stockOf, findProduct, shopSold, shirt, mRed, variantMatches]

/-! ## Lemmas on `cancelOrder` -/

theorem findOrder_replaceOrder {orders : List Order} {id : Nat} {o o' : Order}
    (hf : findOrder orders id = some o) (hid : o'._id = o._id) :
    findOrder (replaceOrder orders o') id = some o' := by
  induction orders with
  | nil => simp [findOrder] at hf
  | cons x xs ih =>
    have hoid := findOrder_id hf
    simp only [findOrder, List.find?_cons] at hf
    by_cases hx : x._id = id
    · have hx' : x._id = o'._id := by rw [hid, hoid, hx]
      simp [replaceOrder, findOrder, hx', hid, hoid]
    · have hb : (x._id == id) = false := by simpa using hx
      simp only [hb] at hf
      have hx' : ¬ x._id = o'._id := by rw [hid, hoid]; exact hx
      simp only [replaceOrder, beq_iff_eq, hx', if_false, findOrder, List.find?_cons, hb]
      exact ih hf

theorem cancellable_iff (status : String) :
    ["pending", "confirmed"].contains status = true
      ↔ status = "pending" ∨ status = "confirmed" := by
  simp

/-- Handler `cancelOrder` on an order that is neither pending nor confirmed. -/
theorem cancelOrder_refused {env : Env} {s : Store} {id : Nat} {reason : Option String}
    {o : Order} (hf : findOrder s.orders id = some o)
    (hst : ¬ (o.status = "pending" ∨ o.status = "confirmed")) :
    cancelOrder env s id reason = (.error 400 "Order cannot be cancelled at this stage", s) := by
  have hc : ["pending", "confirmed"].contains o.status = false := by
    rw [Bool.eq_false_iff]
    intro h
    exact hst ((cancellable_iff _).mp h)
  unfold cancelOrder
  rw [hf]
  simp only [hc, Bool.not_false, if_true]

/-- Handler `cancelOrder` on a pending or confirmed order. -/
theorem cancelOrder_applied {env : Env} {s : Store} {id : Nat} {reason : Option String}
    {o : Order} (hf : findOrder s.orders id = some o)
    (hst : o.status = "pending" ∨ o.status = "confirmed") :
    cancelOrder env s id reason =
      (if env.emailOk then .success 200 { o with status := "cancelled", cancelReason := reason }
       else .error 500 "email could not be sent",
       { s with
         products := restoreStock s.positional s.products o.items
         orders := replaceOrder s.orders
           { o with status := "cancelled", cancelReason := reason } }) := by
  have hc : ["pending", "confirmed"].contains o.status = true := (cancellable_iff _).mpr hst
  have he : "cancelled" ∈ orderStatusEnum := by decide
  unfold cancelOrder saveOrder cancelledOrder
  rw [hf]
  simp only [hc, Bool.not_true, he, if_true, Bool.false_eq_true, if_false]
  split <;> rfl

theorem findOrder_shopSold : findOrder shopSold.orders 1 = some shirtOrder := by
  simp [findOrder, shopSold, shirtOrder, buildOrder, calm]

theorem restoreStock_shopSold :
    restoreStock shopSold.positional shopSold.products shirtOrder.items = shop.products := by
  simp [restoreStock, shopSold, shirtOrder, buildOrder, shirtLine, findOneAndUpdateStock,
    incVariantStock, filterMatches, boundBy, shirt, mRed, shop]

theorem findOrder_shopShipped :
    findOrder shopShipped.orders 1 = some { shirtOrder with status := "shipped" } := by
  simp [findOrder, shopShipped, shopSold, shirtOrder, buildOrder, calm]

/-! ## The restore loop undoes the decrement loop -/

theorem boundBy_stock (rule : Positional) (sel : VariantSel) (v : Variant) (x : ℚ) :
    boundBy rule sel { v with stock := x } = boundBy rule sel v := by
  cases rule <;> rfl

/-- An increment changes no size and no colour. -/
theorem any_incVariantStock (rule : Positional) (f : Variant → Bool)
    (hf : ∀ (v : Variant) (x : ℚ), f { v with stock := x } = f v)
    (vs : List Variant) (sel : VariantSel) (d : ℚ) :
    (incVariantStock rule vs sel d).any f = vs.any f := by
  induction vs with
  | nil => rfl
  | cons v vs ih =>
    unfold incVariantStock
    split
    · simp only [List.any_cons, hf]
    · simp only [List.any_cons, ih]

/-- An increment does not change which filters a product matches. -/
theorem filterMatches_inc (rule : Positional) (id : Nat) (sel sel' : VariantSel) (p : Product)
    (d : ℚ) :
    filterMatches id sel { p with variants := incVariantStock rule p.variants sel' d }
      = filterMatches id sel p := by
  unfold filterMatches
  simp only [any_incVariantStock rule (fun v => v.size == sel.size) (fun _ _ => rfl),
    any_incVariantStock rule (fun v => v.color == sel.color) (fun _ _ => rfl)]

theorem incVariantStock_comm (rule : Positional) (vs : List Variant) (s1 s2 : VariantSel)
    (d1 d2 : ℚ) :
    incVariantStock rule (incVariantStock rule vs s1 d1) s2 d2
      = incVariantStock rule (incVariantStock rule vs s2 d2) s1 d1 := by
  induction vs with
  | nil => rfl
  | cons v vs ih =>
    by_cases h1 : boundBy rule s1 v = true <;> by_cases h2 : boundBy rule s2 v = true
    · simp [incVariantStock, h1, h2, boundBy_stock, add_right_comm]
    · simp [incVariantStock, h1, h2, boundBy_stock]
    · simp [incVariantStock, h1, h2, boundBy_stock]
    · simp [incVariantStock, h1, h2, ih]

theorem incVariantStock_cancel (rule : Positional) (vs : List Variant) (sel : VariantSel)
    (q : ℚ) :
    incVariantStock rule (incVariantStock rule vs sel (-q)) sel q = vs := by
  induction vs with
  | nil => rfl
  | cons v vs ih =>
    by_cases h : boundBy rule sel v = true
    · simp [incVariantStock, h, boundBy_stock]
    · simp [incVariantStock, h, ih]

theorem findOneAndUpdateStock_comm (rule : Positional) (ps : List Product) (id1 id2 : Nat)
    (s1 s2 : VariantSel) (d1 d2 : ℚ) :
    findOneAndUpdateStock rule (findOneAndUpdateStock rule ps id1 s1 d1) id2 s2 d2
      = findOneAndUpdateStock rule (findOneAndUpdateStock rule ps id2 s2 d2) id1 s1 d1 := by
  induction ps with
  | nil => rfl
  | cons p ps ih =>
    by_cases h1 : filterMatches id1 s1 p = true <;> by_cases h2 : filterMatches id2 s2 p = true
    · simp [findOneAndUpdateStock, h1, h2, filterMatches_inc, incVariantStock_comm]
    · simp [findOneAndUpdateStock, h1, h2, filterMatches_inc]
    · simp [findOneAndUpdateStock, h1, h2, filterMatches_inc]
    · simp [findOneAndUpdateStock, h1, h2, ih]

theorem findOneAndUpdateStock_cancel (rule : Positional) (ps : List Product) (id : Nat)
    (sel : VariantSel) (q : ℚ) :
    findOneAndUpdateStock rule (findOneAndUpdateStock rule ps id sel (-q)) id sel q = ps := by
  induction ps with
  | nil => rfl
  | cons p ps ih =>
    by_cases h : filterMatches id sel p = true
    · simp [findOneAndUpdateStock, h, filterMatches_inc, incVariantStock_cancel]
    · simp [findOneAndUpdateStock, h, ih]

/-- A single store update moves past a decrement loop. -/
theorem decrementStock_update (rule : Positional) (items : List OrderItem) :
    ∀ (ps : List Product) (id : Nat) (sel : VariantSel) (d : ℚ),
      decrementStock rule (findOneAndUpdateStock rule ps id sel d) items
        = findOneAndUpdateStock rule (decrementStock rule ps items) id sel d := by
  induction items with
  | nil => intro ps id sel d; rfl
  | cons i rest ih =>
    intro ps id sel d
    simp only [decrementStock, List.foldl_cons] at ih ⊢
    rw [findOneAndUpdateStock_comm, ih]

/-- Restoring the stock of the line items that were decremented gives back the
catalog, whichever condition binds the positional operator. -/
theorem restoreStock_decrementStock (rule : Positional) (items : List OrderItem) :
    ∀ ps : List Product, restoreStock rule (decrementStock rule ps items) items = ps := by
  induction items with
  | nil => intro ps; rfl
  | cons i rest ih =>
    intro ps
    have h1 : decrementStock rule ps (i :: rest)
        = decrementStock rule
            (findOneAndUpdateStock rule ps i.product i.variant (-i.quantity)) rest := rfl
    have h2 : ∀ qs, restoreStock rule qs (i :: rest)
        = restoreStock rule (findOneAndUpdateStock rule qs i.product i.variant i.quantity) rest :=
      fun _ => rfl
    rw [h1, h2, ← decrementStock_update, findOneAndUpdateStock_cancel, ih]

theorem findOrder_append_new {orders : List Order} {o : Order}
    (hfresh : ∀ x ∈ orders, x._id ≠ o._id) : findOrder (orders ++ [o]) o._id = some o := by
  unfold findOrder
  rw [List.find?_append]
  have hnone : orders.find? (fun x => x._id == o._id) = none := by
    rw [List.find?_eq_none]
    intro x hx
    simpa using hfresh x hx
  simp [hnone]

/-! ## Lemmas on `addReview` -/

theorem findProduct_shopReviewed : findProduct shopReviewed.products 1 = some shirtReviewed := by
  simp [findProduct, shopReviewed, shirtReviewed, shirt]

theorem findProduct_replaceProduct {ps : List Product} {id : Nat} {p p' : Product}
    (hf : findProduct ps id = some p) (hid : p'._id = p._id) :
    findProduct (replaceProduct ps p') id = some p' := by
  induction ps with
  | nil => simp [findProduct] at hf
  | cons x xs ih =>
    have hpid := findProduct_id hf
    simp only [findProduct, List.find?_cons] at hf
    by_cases hx : x._id = id
    · have hx' : x._id = p'._id := by rw [hid, hpid, hx]
      simp [replaceProduct, findProduct, hx', hid, hpid]
    · have hb : (x._id == id) = false := by simpa using hx
      simp only [hb] at hf
      have hx' : ¬ x._id = p'._id := by rw [hid, hpid]; exact hx
      simp only [replaceProduct, beq_iff_eq, hx', if_false, findProduct, List.find?_cons, hb]
      exact ih hf

theorem foldl_rating (reviews : List Review) (a : ℚ) :
    reviews.foldl (fun sum review => sum + review.rating) a
      = a + (reviews.map (fun r => r.rating)).sum := by
  induction reviews generalizing a with
  | nil => simp
  | cons r rest ih => simp [ih, add_assoc]

/-- What `updateAverageRating` leaves on the product. -/
theorem updateAverageRating_spec (p : Product) :
    (updateAverageRating p).reviews = p.reviews ∧
    (updateAverageRating p)._id = p._id ∧
    (updateAverageRating p).ratings.count = p.reviews.length ∧
    (updateAverageRating p).ratings.average = meanRating p.reviews ∧
    (p.reviews = [] → (updateAverageRating p).ratings = { average := 0, count := 0 }) := by
  unfold updateAverageRating meanRating
  by_cases h : p.reviews.length = 0
  · have hnil : p.reviews = [] := List.length_eq_zero.mp h
    simp [h, hnil]
  · have hne : p.reviews ≠ [] := fun e => h (by rw [e]; rfl)
    simp [h, hne, foldl_rating]

/-- Everything a `200` answer of `addReview` tells about the product and the store. -/
theorem addReview_success {env : Env} {s : Store} {user : User} {id : Nat} {rating : ℚ}
    {comment : String} {files : List String} {code : Nat} {p' : Product}
    (h : (addReview env s user id rating comment files).1 = .success code p') :
    ∃ product images,
      findProduct s.products id = some product ∧
      product.reviews.find? (fun review => review.user == user._id) = none ∧
      uploadImages env files = some images ∧
      p' = updateAverageRating { product with reviews := product.reviews ++
        [{ user := user._id, rating := rating, comment := comment, images := images }] } ∧
      code = 200 ∧
      (addReview env s user id rating comment files).2
        = { s with products := replaceProduct s.products p' } := by
  unfold addReview at h ⊢
  cases hp : findProduct s.products id with
  | none => rw [hp] at h; cases h
  | some product =>
    rw [hp] at h
    dsimp only at h ⊢
    cases hr : product.reviews.find? (fun review => review.user == user._id) with
    | some r => rw [hr] at h; cases h
    | none =>
      rw [hr] at h
      dsimp only at h ⊢
      cases hu : uploadImages env files with
      | none => rw [hu] at h; cases h
      | some images =>
        rw [hu] at h
        dsimp only at h ⊢
        split at h
        · rename_i hv
          cases h
          refine ⟨product, images, ?_, ?_, ?_, rfl, rfl, ?_⟩
          · rfl
          · exact hr
          · rfl
          · rw [if_pos hv]
        · cases h

theorem addReview_shirt :
    addReview calm shop alice 1 5 "great" []
      = (.success 200 shirtFiveStars, { shop with products := [shirtFiveStars] }) := by
  simp [addReview, findProduct, shop, shirt, alice, uploadImages, updateAverageRating,
    validateReviewed, replaceProduct, shirtFiveStars, fiveStars]

/-! ## Lemmas on the payment handlers and on `updateOrderStatus` -/

theorem paid_not_declared : "paid" ∉ orderStatusEnum := by decide

theorem payment_failed_not_declared : "payment_failed" ∉ orderStatusEnum := by decide

theorem refunded_not_declared : "refunded" ∉ orderStatusEnum := by decide

/-- The validator of `status` rejects a document whose status is not declared. -/
theorem saveOrder_undeclared (s : Store) (o : Order) (h : o.status ∉ orderStatusEnum) :
    saveOrder s o = none := by
  unfold saveOrder
  rw [if_neg h]

/-- The validator of `status` accepts a document whose status is declared. -/
theorem saveOrder_declared (s : Store) (o : Order) (h : o.status ∈ orderStatusEnum) :
    saveOrder s o = some { s with orders := replaceOrder s.orders o } := by
  unfold saveOrder
  rw [if_pos h]

/-- The store is never changed by `handlePaymentSuccess`, and its answer is an error. -/
theorem handlePaymentSuccess_inert (env : Env) (s : Store) (pid : String) (id : Nat) :
    (handlePaymentSuccess env s pid id).2 = s ∧
    (handlePaymentSuccess env s pid id).1.isError = true := by
  unfold handlePaymentSuccess
  cases env.retrieveIntent with
  | none => exact ⟨rfl, rfl⟩
  | some intent =>
    dsimp only
    split
    · exact ⟨rfl, rfl⟩
    · cases findOrder s.orders id with
      | none => exact ⟨rfl, rfl⟩
      | some o =>
        dsimp only
        rw [saveOrder_undeclared s (paidOrder pid intent o) paid_not_declared]
        exact ⟨rfl, rfl⟩

/-- The store is never changed by `handlePaymentFailure`, and its answer is an error. -/
theorem handlePaymentFailure_inert (env : Env) (s : Store) (id : Nat) (e : Option String) :
    (handlePaymentFailure env s id e).2 = s ∧
    (handlePaymentFailure env s id e).1.isError = true := by
  unfold handlePaymentFailure
  cases findOrder s.orders id with
  | none => exact ⟨rfl, rfl⟩
  | some o =>
    cases e with
    | none => exact ⟨rfl, rfl⟩
    | some msg =>
      dsimp only
      rw [saveOrder_undeclared s (paymentFailedOrder msg o) payment_failed_not_declared]
      exact ⟨rfl, rfl⟩

/-- The store is never changed by `handleRefund`, and its answer is an error. -/
theorem handleRefund_inert (env : Env) (s : Store) (id : Nat) (reason : String) :
    (handleRefund env s id reason).2 = s ∧
    (handleRefund env s id reason).1.isError = true := by
  unfold handleRefund
  cases findOrder s.orders id with
  | none => exact ⟨rfl, rfl⟩
  | some o => exact ⟨rfl, rfl⟩

theorem handlePaymentSuccess_shopSold :
    handlePaymentSuccess gatewayPaid shopSold "pi_1" 1
      = (.error 400 "Order validation failed", shopSold) := by
  unfold handlePaymentSuccess
  simp only [gatewayPaid, intentSucceeded, findOrder_shopSold]
  rw [saveOrder_undeclared shopSold _ paid_not_declared]
  simp

theorem handleRefund_shopSold :
    handleRefund gatewayPaid shopSold 1 "requested_by_customer"
      = (.error 400 "Cannot read properties of undefined", shopSold) := by
  unfold handleRefund
  rw [findOrder_shopSold]

/-- Handler `updateOrderStatus` for an admin or seller asking for a declared status. -/
theorem updateOrderStatus_applied {env : Env} {s : Store} {user : User} {id : Nat}
    {status : String} {o : Order} (hf : findOrder s.orders id = some o)
    (hrole : user.role = "admin" ∨ user.role = "seller") (hst : status ∈ orderStatusEnum) :
    updateOrderStatus env s user id status =
      (if env.emailOk then .success 200 { o with status := status }
       else .error 500 "email could not be sent",
       { s with orders := replaceOrder s.orders { o with status := status } }) := by
  have hc : (user.role != "admin" && user.role != "seller") = false := by
    rcases hrole with h | h <;> simp [h]
  unfold updateOrderStatus
  rw [hf]
  simp only [hc, Bool.false_eq_true, if_false]
  rw [saveOrder_declared s _ hst]
  cases env.emailOk <;> rfl

/-- Handler `updateOrderStatus` for an admin or seller asking for an undeclared status. -/
theorem updateOrderStatus_undeclared {env : Env} {s : Store} {user : User} {id : Nat}
    {status : String} {o : Order} (hf : findOrder s.orders id = some o)
    (hrole : user.role = "admin" ∨ user.role = "seller") (hst : status ∉ orderStatusEnum) :
    updateOrderStatus env s user id status = (.error 500 "Order validation failed", s) := by
  have hc : (user.role != "admin" && user.role != "seller") = false := by
    rcases hrole with h | h <;> simp [h]
  unfold updateOrderStatus
  rw [hf]
  simp only [hc, Bool.false_eq_true, if_false]
  rw [saveOrder_undeclared s _ hst]

/-- Handler `updateOrderStatus` for any other role. -/
theorem updateOrderStatus_forbidden {env : Env} {s : Store} {user : User} {id : Nat}
    {status : String} {o : Order} (hf : findOrder s.orders id = some o)
    (hrole : ¬ (user.role = "admin" ∨ user.role = "seller")) :
    updateOrderStatus env s user id status
      = (.error 403 "Not authorized to update order status", s) := by
  have hc : (user.role != "admin" && user.role != "seller") = true := by
    simp only [not_or] at hrole
    simp [hrole.1, hrole.2]
  unfold updateOrderStatus
  rw [hf]
  simp only [hc, if_true]

/-! ## Lemmas on `getOrder`, coupons, the mailer and line items -/

/-- The handler `createOrder` written out branch by branch. -/
theorem createOrder_branches (env : Env) (s : Store) (req : CreateOrderReq) (sub : ℚ)
    (items : List OrderItem) (o : Order)
    (hc : checkItems s.products req.items 0 [] = .ok (sub, items))
    (ha : attachPayment env req.paymentMethod (buildOrder env req sub items) = some o)
    (hv : validateOrder o = true) :
    createOrder env s req =
      (if env.emailOk then .success 201 o else .error 500 "email could not be sent",
       { s with products := decrementStock s.positional s.products items, orders := s.orders ++ [o] }) := by
  unfold createOrder
  rw [hc]
  dsimp only
  rw [ha]
  dsimp only
  rw [if_pos hv]
  cases env.emailOk <;> rfl

theorem attachPayment_coupon {env : Env} {m : String} {o0 o : Order} (c : Option String)
    (h : attachPayment env m o0 = some o) :
    attachPayment env m { o0 with couponCode := c } = some { o with couponCode := c } := by
  unfold attachPayment at h ⊢
  split
  · rename_i hm
    rw [if_pos hm] at h
    cases hi : env.createIntent with
    | none => rw [hi] at h; cases h
    | some secret =>
      rw [hi] at h
      simp only [Option.map_some', Option.some.injEq] at h ⊢
      subst h
      rfl
  · rename_i hm
    rw [if_neg hm] at h
    cases h
    rfl

/-- The validation loop never reads the `price` of a request item. -/
theorem checkItems_price (products : List Product) (f : ReqItem → ℚ) (items : List ReqItem) :
    ∀ (sub : ℚ) (acc : List OrderItem),
      checkItems products (items.map (fun it => { it with price := f it })) sub acc
        = checkItems products items sub acc := by
  induction items with
  | nil => intro sub acc; rfl
  | cons it rest ih =>
    intro sub acc
    simp only [List.map_cons]
    unfold checkItems
    cases findProduct products it.product with
    | none => rfl
    | some product =>
      dsimp only
      cases product.variants.find? (variantMatches it.variant) with
      | none => rfl
      | some variant =>
        dsimp only
        split
        · rfl
        · exact ih _ _

theorem replaceOrder_map_items (orders : List Order) (id : Nat) (o o' : Order)
    (hf : findOrder orders id = some o) (hid : o'._id = o._id) (hi : o'.items = o.items) :
    (replaceOrder orders o').map (fun x => x.items) = orders.map (fun x => x.items) := by
  induction orders with
  | nil => simp [findOrder] at hf
  | cons x xs ih =>
    have hoid := findOrder_id hf
    simp only [findOrder, List.find?_cons] at hf
    by_cases hx : x._id = id
    · simp only [hx, beq_self_eq_true, Option.some.injEq] at hf
      subst hf
      simp [replaceOrder, hid, hi]
    · have hx' : (x._id == id) = false := by simpa using hx
      simp only [hx'] at hf
      have hne : ¬ x._id = o'._id := by rw [hid, hoid]; exact hx
      simp only [replaceOrder, beq_iff_eq, hne, if_false, List.map_cons, List.cons.injEq,
        true_and]
      exact ih hf

theorem updateOrderStatus_items (env : Env) (s : Store) (user : User) (id : Nat)
    (status : String) :
    (updateOrderStatus env s user id status).2.orders.map (fun x => x.items)
      = s.orders.map (fun x => x.items) := by
  unfold updateOrderStatus saveOrder
  cases hf : findOrder s.orders id with
  | none => rfl
  | some o =>
    dsimp only
    split_ifs <;> first | rfl | exact replaceOrder_map_items s.orders id o _ hf rfl rfl

theorem cancelOrder_items (env : Env) (s : Store) (id : Nat) (reason : Option String) :
    (cancelOrder env s id reason).2.orders.map (fun x => x.items)
      = s.orders.map (fun x => x.items) := by
  unfold cancelOrder saveOrder
  cases hf : findOrder s.orders id with
  | none => rfl
  | some o =>
    dsimp only
    split_ifs <;> first | rfl | exact replaceOrder_map_items s.orders id o _ hf rfl rfl

/-! ## Lemmas on `rateLimiter` -/

theorem runLimiter_snoc (limit : Nat) (w : Int) (pre : List Hit) (h : Hit) :
    runLimiter limit w (pre ++ [h]) = serve limit w (runLimiter limit w pre) h := by
  simp [runLimiter, List.foldl_append]

theorem set_same (m : RequestMap) (ip : String) (ts : List Int) :
    (m.set ip ts) ip = some ts := by
  simp [RequestMap.set]

theorem set_other (m : RequestMap) (ip key : String) (ts : List Int) (h : key ≠ ip) :
    (m.set ip ts) key = m key := by
  simp [RequestMap.set, h]

/-- A request of another ip leaves the entry and the admitted requests of `ip` alone. -/
theorem serve_other (limit : Nat) (w : Int) (st : RequestMap × List Hit) (h : Hit)
    (ip : String) (hne : h.ip ≠ ip) :
    (serve limit w st h).1 ip = st.1 ip ∧
    (serve limit w st h).2.filter (fun x => x.ip = ip) = st.2.filter (fun x => x.ip = ip) := by
  have hne' : ip ≠ h.ip := fun e => hne e.symm
  unfold serve rateLimiter
  cases st.1 h.ip with
  | none => simp [set_other _ _ _ _ hne', hne]
  | some ts =>
    dsimp only
    split_ifs <;> simp [set_other _ _ _ _ hne', hne]

/-- A request of `ip` when the map has no entry for it. -/
theorem serve_first (limit : Nat) (w : Int) (st : RequestMap × List Hit) (h : Hit)
    (hn : st.1 h.ip = none) :
    (rateLimiter limit w st.1 h.ip h.now).1 = true ∧
    (serve limit w st h).1 h.ip = some [h.now] ∧
    (serve limit w st h).2 = st.2 ++ [h] := by
  unfold serve rateLimiter
  rw [hn]
  simp [set_same]

/-- A request of `ip` that finds `limit` recorded timestamps in the window. -/
theorem serve_rejected (limit : Nat) (w : Int) (st : RequestMap × List Hit) (h : Hit)
    (ts : List Int) (hs : st.1 h.ip = some ts) (hfull : limit ≤ (inWindow w h.now ts).length) :
    (rateLimiter limit w st.1 h.ip h.now).1 = false ∧
    (serve limit w st h).1 h.ip = some (inWindow w h.now ts) ∧
    (serve limit w st h).2 = st.2 := by
  unfold serve rateLimiter
  rw [hs]
  unfold inWindow at hfull ⊢
  simp [set_same, hfull]

/-- A request of `ip` that finds fewer than `limit` recorded timestamps in the window. -/
theorem serve_admitted (limit : Nat) (w : Int) (st : RequestMap × List Hit) (h : Hit)
    (ts : List Int) (hs : st.1 h.ip = some ts) (hroom : (inWindow w h.now ts).length < limit) :
    (rateLimiter limit w st.1 h.ip h.now).1 = true ∧
    (serve limit w st h).1 h.ip = some (inWindow w h.now ts ++ [h.now]) ∧
    (serve limit w st h).2 = st.2 ++ [h] := by
  have hnot : ¬ limit ≤ (inWindow w h.now ts).length := Nat.not_le.mpr hroom
  unfold serve rateLimiter
  rw [hs]
  unfold inWindow at hnot ⊢
  simp [set_same, hnot]

theorem inWindow_append (w now : Int) (a b : List Int) :
    inWindow w now (a ++ b) = inWindow w now a ++ inWindow w now b := by
  simp [inWindow]

theorem inWindow_sublist (w now : Int) (ts : List Int) : (inWindow w now ts).Sublist ts := by
  unfold inWindow
  exact List.filter_sublist ts

/-- Filtering for a later window makes an earlier filtering redundant. -/
theorem inWindow_inWindow (w now now' : Int) (hle : now ≤ now') (ts : List Int) :
    inWindow w now' (inWindow w now ts) = inWindow w now' ts := by
  unfold inWindow
  rw [List.filter_filter]
  apply List.filter_congr
  intro x _
  by_cases hx : x > now' - w
  · have : x > now - w := by omega
    simp [hx, this]
  · simp [hx]

theorem countIn_append (w t : Int) (a b : List Int) :
    countIn w t (a ++ b) = countIn w t a + countIn w t b := by
  simp [countIn]

theorem countIn_singleton_le (w t x : Int) : countIn w t [x] ≤ 1 := by
  unfold countIn
  exact (List.length_filter_le _ _).trans (by simp)

theorem countIn_singleton_out (w t x : Int) (h : ¬ (t - w < x ∧ x ≤ t)) :
    countIn w t [x] = 0 := by
  simp [countIn, h]

/-- An interval ending at or after `now` holds no more of the times than the window of
`now`. -/
theorem countIn_le_inWindow (w now t : Int) (hle : now ≤ t) (ts : List Int) :
    countIn w t ts ≤ (inWindow w now ts).length := by
  have h : ts.filter (fun time => decide (t - w < time ∧ time ≤ t))
      = (inWindow w now ts).filter (fun time => decide (t - w < time ∧ time ≤ t)) := by
    unfold inWindow
    rw [List.filter_filter]
    apply List.filter_congr
    intro x _
    by_cases hx : t - w < x ∧ x ≤ t
    · have : x > now - w := by omega
      simp [hx, this]
    · simp [hx]
  unfold countIn
  rw [h]
  exact List.length_filter_le _ _

theorem arrivalTimes_snoc (pre : List Hit) (h : Hit) (ip : String) :
    arrivalTimes (pre ++ [h]) ip
      = if h.ip = ip then arrivalTimes pre ip ++ [h.now] else arrivalTimes pre ip := by
  unfold arrivalTimes
  by_cases hip : h.ip = ip <;> simp [List.filter_append, hip]

theorem admittedTimes_snoc (limit : Nat) (w : Int) (pre : List Hit) (h : Hit) (ip : String) :
    admittedTimes limit w (pre ++ [h]) ip
      = ((serve limit w (runLimiter limit w pre) h).2.filter (fun x => x.ip = ip)).map
          (fun x => x.now) := by
  unfold admittedTimes
  rw [runLimiter_snoc]

theorem admittedTimes_serve_append (limit : Nat) (w : Int) (pre : List Hit) (h : Hit) :
    (((runLimiter limit w pre).2 ++ [h]).filter (fun x => x.ip = h.ip)).map (fun x => x.now)
      = admittedTimes limit w pre h.ip ++ [h.now] := by
  simp [admittedTimes, List.filter_append]

/-- The invariant of the limiter holds after every sequence of requests in which the
arrival times of `ip` do not decrease. -/
theorem limiterInv_holds (limit : Nat) (w : Int) (ip : String) (hl : 1 ≤ limit)
    (hits : List Hit) :
    (arrivalTimes hits ip).Pairwise (fun a b => a ≤ b) → LimiterInv limit w hits ip := by
  induction hits using List.reverseRecOn with
  | nil =>
    intro _
    unfold LimiterInv
    refine ⟨?_, ?_⟩
    · simp [runLimiter, RequestMap.empty, arrivalTimes, admittedTimes]
    · intro t
      simp [admittedTimes, runLimiter, countIn]
  | append_singleton pre h ih =>
    intro hs
    rw [arrivalTimes_snoc] at hs
    by_cases hip : h.ip = ip
    · subst hip
      rw [if_pos rfl] at hs
      have hpre : (arrivalTimes pre h.ip).Pairwise (fun a b => a ≤ b) :=
        (List.pairwise_append.mp hs).1
      have hlast : ∀ t ∈ arrivalTimes pre h.ip, t ≤ h.now :=
        fun t ht => (List.pairwise_append.mp hs).2.2 t ht h.now (by simp)
      have ihp := ih hpre
      unfold LimiterInv at ihp ⊢
      obtain ⟨ihm, ihc⟩ := ihp
      rw [runLimiter_snoc, admittedTimes_snoc, arrivalTimes_snoc, if_pos rfl]
      cases hentry : (runLimiter limit w pre).1 h.ip with
      | none =>
        rw [hentry] at ihm
        obtain ⟨_, hadm⟩ := ihm
        obtain ⟨_, h2, h3⟩ := serve_first limit w (runLimiter limit w pre) h hentry
        rw [h2, h3, admittedTimes_serve_append, hadm]
        refine ⟨⟨List.Sublist.refl _, fun _ _ => rfl⟩, ?_⟩
        intro t
        exact (countIn_singleton_le w t h.now).trans hl
      | some ts =>
        rw [hentry] at ihm
        obtain ⟨hsub, hwin⟩ := ihm
        have hnow := hwin h.now hlast
        by_cases hfull : limit ≤ (inWindow w h.now ts).length
        · obtain ⟨_, h2, h3⟩ := serve_rejected limit w (runLimiter limit w pre) h ts hentry hfull
          rw [h2, h3]
          refine ⟨⟨(inWindow_sublist w h.now ts).trans hsub, ?_⟩, ihc⟩
          intro now' hall
          have hle : h.now ≤ now' := hall h.now (by simp)
          rw [inWindow_inWindow w h.now now' hle]
          exact hwin now' (fun t ht => hall t (List.mem_append_left _ ht))
        · have hroom : (inWindow w h.now ts).length < limit := Nat.lt_of_not_le hfull
          obtain ⟨_, h2, h3⟩ := serve_admitted limit w (runLimiter limit w pre) h ts hentry hroom
          rw [h2, h3, admittedTimes_serve_append]
          refine ⟨⟨(((inWindow_sublist w h.now ts).trans hsub).append (List.Sublist.refl _)), ?_⟩, ?_⟩
          · intro now' hall
            have hle : h.now ≤ now' := hall h.now (by simp)
            rw [inWindow_append, inWindow_append, inWindow_inWindow w h.now now' hle]
            rw [hwin now' (fun t ht => hall t (List.mem_append_left _ ht))]
          · intro t
            rw [countIn_append]
            by_cases hin : t - w < h.now ∧ h.now ≤ t
            · have h1 := countIn_le_inWindow w h.now t hin.2 (admittedTimes limit w pre h.ip)
              rw [← hnow] at h1
              have h4 := countIn_singleton_le w t h.now
              omega
            · rw [countIn_singleton_out w t h.now hin]
              exact ihc t
    · rw [if_neg hip] at hs
      have ihp := ih hs
      unfold LimiterInv at ihp ⊢
      obtain ⟨h1, h2⟩ := serve_other limit w (runLimiter limit w pre) h ip hip
      rw [runLimiter_snoc, admittedTimes_snoc, arrivalTimes_snoc, if_neg hip, h1, h2]
      exact ihp

/-- Only requests that arrived are admitted, in their order of arrival. -/
theorem runLimiter_sublist (limit : Nat) (w : Int) (hits : List Hit) :
    (runLimiter limit w hits).2.Sublist hits := by
  induction hits using List.reverseRecOn with
  | nil => simp [runLimiter]
  | append_singleton pre h ih =>
    rw [runLimiter_snoc]
    unfold serve
    dsimp only
    split
    · exact ih.append (List.Sublist.refl _)
    · exact ih.trans (List.sublist_append_left _ _)

theorem admittedTimes_sublist (limit : Nat) (w : Int) (hits : List Hit) (ip : String) :
    (admittedTimes limit w hits ip).Sublist (arrivalTimes hits ip) := by
  unfold admittedTimes arrivalTimes
  exact ((runLimiter_sublist limit w hits).filter _).map _

/-- When no time exceeds `now`, the window of `now` is the interval ending at `now`. -/
theorem inWindow_length_eq_countIn (w now : Int) (ts : List Int) (h : ∀ t ∈ ts, t ≤ now) :
    (inWindow w now ts).length = countIn w now ts := by
  unfold inWindow countIn
  congr 1
  apply List.filter_congr
  intro x hx
  have := h x hx
  by_cases hgt : x > now - w
  · have : now - w < x ∧ x ≤ now := ⟨hgt, this⟩
    simp [hgt, this]
  · have : ¬ (now - w < x ∧ x ≤ now) := fun e => hgt e.1
    simp [hgt, this]

/-! ## Pricing under a rounded arithmetic -/

/-- The loop of `createOrder` is the fold of `calculateTotals`, from any start value. -/
theorem loopPricing_eq_foldl (rnd : ℚ → ℚ) (items : List OrderItem) :
    ∀ sub : ℚ, loopPricing rnd items sub
      = (items.foldl (fun sum item => rnd (sum + rnd (item.price * item.quantity))) sub,
         rnd (items.foldl (fun sum item => rnd (sum + rnd (item.price * item.quantity))) sub
           * rnd 0.18)) := by
  induction items with
  | nil => intro sub; rfl
  | cons i rest ih =>
    intro sub
    rw [loopPricing, ih]
    rfl

theorem loopPricing_reducePricing (rnd : ℚ → ℚ) (items : List OrderItem) :
    loopPricing rnd items 0 = reducePricing rnd items :=
  loopPricing_eq_foldl rnd items 0

theorem reducePricing_exact (items : List OrderItem) :
    reducePricing id items = (lineTotal items, lineTotal items * 0.18) := rfl

/-- On a positive fraction in lowest terms `roundDouble` is `roundRatio`. -/
theorem roundDouble_ratio (x : ℚ) (n d : Nat) (hn : 0 < n) (hd : 0 < d) (hc : Nat.Coprime n d)
    (hx : x = (n : ℚ) / d) : roundDouble x = roundRatio n d := by
  have hpos : 0 < x := by rw [hx]; positivity
  have hd' : (0 : ℤ) < (d : ℤ) := by exact_mod_cast hd
  have hc' : Nat.Coprime (n : ℤ).natAbs (d : ℤ).natAbs := by simpa using hc
  have hnum : x.num = n := by
    have h := @Rat.num_div_eq_of_coprime (n : ℤ) (d : ℤ) hd' hc'
    rw [Int.cast_natCast, Int.cast_natCast] at h
    rw [hx]; exact h
  have hden : x.den = d := by
    have h := @Rat.den_div_eq_of_coprime (n : ℤ) (d : ℤ) hd' hc'
    rw [Int.cast_natCast, Int.cast_natCast] at h
    rw [hx]; exact_mod_cast h
  unfold roundDouble
  rw [if_neg hpos.ne', if_pos hpos, hnum, hden]
  rfl

/-- The number 10 is a double. -/
theorem roundDouble_ten : roundDouble 10 = 10 := by
  rw [roundDouble_ratio 10 10 1 (by decide) (by decide) (by decide) (by norm_num)]
  have h1 : significandOf 10 1 = 5629499534213120 := by rfl
  have h2 : exponentOf 10 1 = 3 := by rfl
  rw [roundRatio, h1, h2]; norm_num

/-- The number 1000 is a double. -/
theorem roundDouble_thousand : roundDouble 1000 = 1000 := by
  rw [roundDouble_ratio 1000 1000 1 (by decide) (by decide) (by decide) (by norm_num)]
  have h1 : significandOf 1000 1 = 8796093022208000 := by rfl
  have h2 : exponentOf 1000 1 = 9 := by rfl
  rw [roundRatio, h1, h2]; norm_num

/-- The literal 0.18 denotes the double `rateDouble`. -/
theorem roundDouble_rate : roundDouble 0.18 = rateDouble := by
  rw [roundDouble_ratio 0.18 9 50 (by decide) (by decide) (by decide) (by norm_num)]
  have h1 : significandOf 9 50 = 6485183463413514 := by rfl
  have h2 : exponentOf 9 50 = -3 := by rfl
  rw [roundRatio, h1, h2, rateDouble]; norm_num

/-- The double product of 10 and the double 0.18. -/
theorem roundDouble_tax_ten : roundDouble (10 * rateDouble) = taxOfTen := by
  rw [roundDouble_ratio _ 16212958658533785 9007199254740992 (by decide) (by decide)
    (by norm_num) (by rw [rateDouble]; norm_num)]
  have h1 : significandOf 16212958658533785 9007199254740992 = 8106479329266892 := by rfl
  have h2 : exponentOf 16212958658533785 9007199254740992 = 0 := by rfl
  rw [roundRatio, h1, h2, taxOfTen]; norm_num

/-- The double product of 1000 and the double 0.18. -/
theorem roundDouble_tax_thousand : roundDouble (1000 * rateDouble) = 180 := by
  rw [roundDouble_ratio _ 405323966463344625 2251799813685248 (by decide) (by decide)
    (by norm_num) (by rw [rateDouble]; norm_num)]
  have h1 : significandOf 405323966463344625 2251799813685248 = 6333186975989760 := by rfl
  have h2 : exponentOf 405323966463344625 2251799813685248 = 7 := by rfl
  rw [roundRatio, h1, h2]; norm_num

/-- The double nearest to 1.8 is 8106479329266893 / 2 ^ 52. -/
theorem roundDouble_nine_fifths :
    roundDouble (18 / 100 * 10) = 8106479329266893 / 4503599627370496 := by
  rw [roundDouble_ratio _ 9 5 (by decide) (by decide) (by decide) (by norm_num)]
  have h1 : significandOf 9 5 = 8106479329266893 := by rfl
  have h2 : exponentOf 9 5 = 0 := by rfl
  rw [roundRatio, h1, h2]; norm_num

theorem loopPricing_tenLine : loopPricing roundDouble [tenLine] 0 = (10, taxOfTen) := by
  have h : loopPricing roundDouble [tenLine] 0
      = (roundDouble (0 + roundDouble (10 * 1)),
         roundDouble (roundDouble (0 + roundDouble (10 * 1)) * roundDouble 0.18)) := rfl
  rw [h, mul_one, roundDouble_ten, zero_add, roundDouble_ten, roundDouble_rate,
    roundDouble_tax_ten]

theorem loopPricing_shirtLine : loopPricing roundDouble [shirtLine 2] 0 = (1000, 180) := by
  have h : loopPricing roundDouble [shirtLine 2] 0
      = (roundDouble (0 + roundDouble (500 * 2)),
         roundDouble (roundDouble (0 + roundDouble (500 * 2)) * roundDouble 0.18)) := rfl
  rw [h, (by norm_num : (500 : ℚ) * 2 = 1000), roundDouble_thousand, zero_add,
    roundDouble_thousand, roundDouble_rate, roundDouble_tax_thousand]

/-! ## Evaluation on the boutique -/

theorem stockOf_jackets (a b c d : ℚ) :
    stockOf (jackets a b c d) 2 sBlue = some b ∧ stockOf (jackets a b c d) 2 mRed = some c ∧
    stockOf (jackets a b c d) 2 mBlue = some d := by
  simp [stockOf, findProduct, jackets, sBlue, mRed, mBlue, variantMatches]

/-- With the size condition binding the position, the update for (M, blue) lands on
(M, red), the first variant of size M. -/
theorem decrementStock_jackets_bySize (a b c d : ℚ) :
    decrementStock .bySize (jackets a b c d) [jacketLine] = jackets a b (c - 2) d := by
  simp [decrementStock, findOneAndUpdateStock, incVariantStock, filterMatches, boundBy, jackets,
    jacketLine, mBlue]
  ring

/-- With the colour condition binding the position, the update for (M, blue) lands on
(S, blue), the first variant of colour blue. -/
theorem decrementStock_jackets_byColor (a b c d : ℚ) :
    decrementStock .byColor (jackets a b c d) [jacketLine] = jackets a (b - 2) c d := by
  simp [decrementStock, findOneAndUpdateStock, incVariantStock, filterMatches, boundBy, jackets,
    jacketLine, mBlue]
  ring

theorem restoreStock_jackets_bySize (a b c d : ℚ) :
    restoreStock .bySize (jackets a b c d) [jacketLine] = jackets a b (c + 2) d := by
  simp [restoreStock, findOneAndUpdateStock, incVariantStock, filterMatches, boundBy, jackets,
    jacketLine, mBlue]

theorem restoreStock_jackets_byColor (a b c d : ℚ) :
    restoreStock .byColor (jackets a b c d) [jacketLine] = jackets a (b + 2) c d := by
  simp [restoreStock, findOneAndUpdateStock, incVariantStock, filterMatches, boundBy, jackets,
    jacketLine, mBlue]

theorem createOrder_jacket (rule : Positional) :
    createOrder calm (boutique rule) jacketReq
      = (.success 201 jacketOrder,
         { products := decrementStock rule (jackets 5 5 5 5) [jacketLine],
           orders := [jacketOrder], positional := rule }) := by
  simp [createOrder, checkItems, findProduct, boutique, jackets, jacketReq, mBlue,
    variantMatches, attachPayment, validateOrder, calm, jacketOrder, jacketLine, buildOrder,
    paymentMethodEnum, paymentStatusEnum, orderStatusEnum]
  norm_num

theorem findOrder_boutiqueSold (rule : Positional) (a b c d : ℚ) :
    findOrder (boutiqueSold rule a b c d).orders 1 = some jacketOrder := by
  simp [findOrder, boutiqueSold, jacketOrder, buildOrder, calm]

/-! ## Claims -/

/-- C1: the order built by `createOrder` (for every request, the empty item list
included) and the result of `calculateTotals` satisfy
`total = subtotal + tax + shippingCost - discount`; in a store where every order
satisfies it, every order still does after `createOrder`, `updateOrderStatus`,
`cancelOrder`, `handlePaymentSuccess`, `handlePaymentFailure` and `handleRefund`, and the
five lifecycle handlers leave the money fields of every stored order as they were. -/
theorem C1_totals_invariant (env : Env) (s : Store) (h : StoreTotalsOk s) :
    (∀ req : CreateOrderReq,
      StoreTotalsOk (createOrder env s req).2 ∧
      (∀ code o, (createOrder env s req).1 = .success code o →
        totalsOk o ∧ (createOrder env s req).2.orders = s.orders ++ [o])) ∧
    (∀ req sub items, totalsOk (buildOrder env req sub items)) ∧
    (∀ o : Order, totalsOk (calculateTotals o)) ∧
    (∀ user id status,
      StoreTotalsOk (updateOrderStatus env s user id status).2 ∧
      (updateOrderStatus env s user id status).2.orders.map moneyFields
        = s.orders.map moneyFields) ∧
    (∀ id reason,
      StoreTotalsOk (cancelOrder env s id reason).2 ∧
      (cancelOrder env s id reason).2.orders.map moneyFields = s.orders.map moneyFields) ∧
    (∀ intent id,
      StoreTotalsOk (handlePaymentSuccess env s intent id).2 ∧
      (handlePaymentSuccess env s intent id).2.orders.map moneyFields
        = s.orders.map moneyFields) ∧
    (∀ id e,
      StoreTotalsOk (handlePaymentFailure env s id e).2 ∧
      (handlePaymentFailure env s id e).2.orders.map moneyFields
        = s.orders.map moneyFields) ∧
    (∀ id reason,
      StoreTotalsOk (handleRefund env s id reason).2 ∧
      (handleRefund env s id reason).2.orders.map moneyFields = s.orders.map moneyFields) := by
  refine ⟨?_, ?_, ?_, ?_, ?_, ?_, ?_, ?_⟩
  · intro req
    rcases createOrder_cases env s req with ⟨hs, he, _⟩ | ⟨sub, items, o, _, ha, _, hs, hr⟩
    · refine ⟨by rw [hs]; exact h, ?_⟩
      intro code o hr
      rw [hr] at he
      cases he
    · have ho : totalsOk o :=
        (totalsOk_of_moneyFields (attachPayment_some ha).2.2.2.1).2 (buildOrder_totalsOk _ _ _ _)
      refine ⟨?_, ?_⟩
      · rw [hs]
        intro x hx
        rcases List.mem_append.mp hx with hx | hx
        · exact h x hx
        · rw [List.mem_singleton.mp hx]; exact ho
      · intro code o' hr'
        rw [hr] at hr'
        split at hr'
        · cases hr'
          exact ⟨ho, by rw [hs]⟩
        · cases hr'
  · intro req sub items
    exact buildOrder_totalsOk _ _ _ _
  · intro o
    simp [totalsOk, calculateTotals]
  · intro user id status
    exact ⟨storeTotalsOk_of_map (updateOrderStatus_money ..) h, updateOrderStatus_money ..⟩
  · intro id reason
    exact ⟨storeTotalsOk_of_map (cancelOrder_money ..) h, cancelOrder_money ..⟩
  · intro intent id
    exact ⟨storeTotalsOk_of_map (handlePaymentSuccess_money ..) h,
      handlePaymentSuccess_money ..⟩
  · intro id e
    exact ⟨storeTotalsOk_of_map (handlePaymentFailure_money ..) h,
      handlePaymentFailure_money ..⟩
  · intro id reason
    exact ⟨storeTotalsOk_of_map (handleRefund_money ..) h, handleRefund_money ..⟩

/-- Witness of C1: in the shop holding the order for two shirts the invariant holds, and
it still holds after that order is cancelled. -/
theorem C1_totals_invariant_witness :
    StoreTotalsOk shopSold ∧ StoreTotalsOk (cancelOrder calm shopSold 1 none).2 :=
  have h : StoreTotalsOk shopSold := by
    intro o ho
    simp only [shopSold, List.mem_singleton] at ho
    subst ho
    exact buildOrder_totalsOk _ _ _ _
  ⟨h, ((C1_totals_invariant calm shopSold h).2.2.2.2.1 1 none).1⟩

/-- Counterexample to C2 as stated: the order whose only line item is
{price 500, quantity 2} has subtotal 1000, which is at the threshold, and is charged the
flat fee 100, so that its total is 1280 and not 1180. -/
theorem C2_counterexample :
    (createOrder calm shop (shirtReq [2])).1 = .success 201 shirtOrder ∧
    shirtOrder.items = [shirtLine 2] ∧ (shirtLine 2).price = 500 ∧ (shirtLine 2).quantity = 2 ∧
    shirtOrder.subtotal = 1000 ∧ shirtOrder.shippingCost = 100 ∧ shirtOrder.shippingCost ≠ 0 ∧
    shirtOrder.total = 1280 ∧ shirtOrder.total ≠ 1180 := by
  refine ⟨?_, rfl, rfl, rfl, rfl, ?_, ?_, ?_, ?_⟩
  · exact createOrder_shirt_two_response
  all_goals norm_num [shirtOrder, buildOrder]

/-- C2 (amended): in every order created by `createOrder` the shipping cost is the flat
fee 100 when the subtotal is at most 1000 and 0 when the subtotal exceeds 1000; an order
whose only line item is {price 500, quantity 2} has subtotal 1000, shipping 100, tax 180
and total 1280. -/
theorem C2_shipping_rule (env : Env) (s : Store) (req : CreateOrderReq) (code : Nat)
    (o : Order) (h : (createOrder env s req).1 = .success code o) :
    (o.subtotal ≤ 1000 → o.shippingCost = 100) ∧
    (1000 < o.subtotal → o.shippingCost = 0) ∧
    (∀ li : OrderItem, o.items = [li] → li.price = 500 → li.quantity = 2 →
      o.subtotal = 1000 ∧ o.shippingCost = 100 ∧ o.tax = 180 ∧ o.total = 1280) ∧
    (∀ (sub : ℚ) (items : List OrderItem),
      (sub ≤ 1000 → (buildOrder env req sub items).shippingCost = 100) ∧
      (1000 < sub → (buildOrder env req sub items).shippingCost = 0)) := by
  obtain ⟨_, _, _, _, _, _, hsub, htax, hship, hdisc, htotal, _⟩ := createOrder_success h
  refine ⟨?_, ?_, ?_, ?_⟩
  rotate_right
  · intro sub items
    exact ⟨fun hle => by simp [buildOrder, not_lt.mpr hle],
      fun hlt => by simp [buildOrder, hlt]⟩
  · intro hle
    rw [hship, if_neg (not_lt.mpr hle)]
  · intro hlt
    rw [hship, if_pos hlt]
  · intro li hitems hp hq
    have h1 : o.subtotal = 1000 := by
      rw [hsub, hitems]
      norm_num [lineTotal, hp, hq]
    have h2 : o.shippingCost = 100 := by rw [hship, h1]; norm_num
    have h3 : o.tax = 180 := by rw [htax, h1]; norm_num
    refine ⟨h1, h2, h3, ?_⟩
    rw [htotal, h1, h2, h3, hdisc]
    norm_num

/-- Witness of C2 (amended): the order for two shirts at 500 each. -/
theorem C2_shipping_rule_witness :
    (createOrder calm shop (shirtReq [2])).1 = .success 201 shirtOrder ∧
    shirtOrder.subtotal = 1000 ∧ shirtOrder.shippingCost = 100 ∧ shirtOrder.tax = 180 ∧
    shirtOrder.total = 1280 :=
  have h : (createOrder calm shop (shirtReq [2])).1 = .success 201 shirtOrder := 
    createOrder_shirt_two_response
  ⟨h, (C2_shipping_rule calm shop (shirtReq [2]) 201 shirtOrder h).2.2.1 (shirtLine 2) rfl rfl rfl⟩

/-- Counterexample to C3 as stated: with the arithmetic of IEEE 754 doubles, which is the
arithmetic of the code, one line item of price 10 and quantity 1 gets subtotal 10 and
tax 1.7999999999999998 (the double 8106479329266892 / 2 ^ 52) from the loop of
`createOrder` and from `calculateTotals` alike; that tax is not 18/100 of 10, nor the
double nearest to it. -/
theorem C3_counterexample :
    loopPricing roundDouble [tenLine] 0 = (10, taxOfTen) ∧
    reducePricing roundDouble [tenLine] = (10, taxOfTen) ∧
    taxOfTen ≠ 18 / 100 * 10 ∧
    taxOfTen ≠ roundDouble (18 / 100 * 10) := by
  refine ⟨loopPricing_tenLine, ?_, ?_, ?_⟩
  · rw [← loopPricing_reducePricing]
    exact loopPricing_tenLine
  · rw [taxOfTen]; norm_num
  · rw [roundDouble_nine_fifths, taxOfTen]; norm_num

/-- C3 (amended): for every list of line items and every rounding of the arithmetic
operations, the loop of `createOrder` and the fold of `calculateTotals` give the same
subtotal and tax: the subtotal adds, in order and from 0, unit price times quantity, and
the tax is the product of the subtotal and the literal 0.18. In exact arithmetic the
subtotal is the sum and the tax is 18/100 of it, and these are the subtotal and tax of
every order created by `createOrder` and of `calculateTotals` on it. In doubles the tax
of the order for two shirts (subtotal 1000) is 180. -/
theorem C3_pricing_agreement (env : Env) (s : Store) (req : CreateOrderReq) (code : Nat)
    (o : Order) (h : (createOrder env s req).1 = .success code o) :
    (∀ (rnd : ℚ → ℚ) (items : List OrderItem),
      loopPricing rnd items 0 = reducePricing rnd items ∧
      (reducePricing rnd items).1
        = items.foldl (fun sum item => rnd (sum + rnd (item.price * item.quantity))) 0 ∧
      (reducePricing rnd items).2 = rnd ((reducePricing rnd items).1 * rnd 0.18)) ∧
    (∀ items : List OrderItem,
      (reducePricing id items).1 = (items.map (fun i => i.price * i.quantity)).sum ∧
      (reducePricing id items).2 = 18 / 100 * (reducePricing id items).1) ∧
    (o.subtotal, o.tax) = loopPricing id o.items 0 ∧
    ((calculateTotals o).subtotal, (calculateTotals o).tax) = reducePricing id o.items ∧
    (calculateTotals o).subtotal = o.subtotal ∧ (calculateTotals o).tax = o.tax ∧
    loopPricing roundDouble [shirtLine 2] 0 = (1000, 180) := by
  obtain ⟨_, _, _, _, _, _, hsub, htax, _⟩ := createOrder_success h
  have hc : (calculateTotals o).subtotal = lineTotal o.items := rfl
  have ht : (calculateTotals o).tax = (calculateTotals o).subtotal * 0.18 := rfl
  refine ⟨fun rnd items => ⟨loopPricing_reducePricing rnd items, rfl, rfl⟩, ?_, ?_, rfl, ?_, ?_,
    loopPricing_shirtLine⟩
  · intro items
    rw [reducePricing_exact]
    refine ⟨lineTotal_eq_sum items, ?_⟩
    show lineTotal items * 0.18 = 18 / 100 * lineTotal items
    norm_num; ring
  · rw [loopPricing_reducePricing, reducePricing_exact, hsub, htax, hsub]
  · rw [hc, hsub]
  · rw [ht, hc, htax, hsub]

/-- Witness of C3 (amended): the order for two shirts has the subtotal and tax of the
loop run on its line items in exact arithmetic, and `calculateTotals` agrees. -/
theorem C3_pricing_agreement_witness :
    (createOrder calm shop (shirtReq [2])).1 = .success 201 shirtOrder ∧
    (shirtOrder.subtotal, shirtOrder.tax) = loopPricing id shirtOrder.items 0 ∧
    (calculateTotals shirtOrder).tax = shirtOrder.tax :=
  have h : (createOrder calm shop (shirtReq [2])).1 = .success 201 shirtOrder :=
    createOrder_shirt_two_response
  ⟨h, (C3_pricing_agreement calm shop (shirtReq [2]) 201 shirtOrder h).2.2.1,
    (C3_pricing_agreement calm shop (shirtReq [2]) 201 shirtOrder h).2.2.2.2.2.1⟩

/-- C4: when some item of a `createOrder` request fails the availability check (no
variant with exactly its size and colour, or less stock than requested; a missing
product likewise), `createOrder` answers with a 400 error and the store is unchanged: no
order is persisted and no stock changes, wherever the item stands in the list. -/
theorem C4_rejected_request_no_mutation (env : Env) (s : Store) (req : CreateOrderReq)
    (h : ∃ it ∈ req.items, ItemRejected s.products it) :
    (∃ msg, (createOrder env s req).1 = .error 400 msg) ∧
    (createOrder env s req).1.isError = true ∧
    (createOrder env s req).2 = s := by
  obtain ⟨msg, hmsg⟩ := checkItems_rejected s.products req.items h 0 []
  unfold createOrder
  rw [hmsg]
  exact ⟨⟨msg, rfl⟩, rfl, rfl⟩

/-- Witness of C4: one shirt (available) followed by three shirts (only two in stock). -/
theorem C4_rejected_request_no_mutation_witness :
    (∃ it ∈ (shirtReq [1, 3]).items, ItemRejected shop.products it) ∧
    (createOrder calm shop (shirtReq [1, 3])).2 = shop :=
  have h : ∃ it ∈ (shirtReq [1, 3]).items, ItemRejected shop.products it :=
    ⟨{ product := 1, variant := mRed, quantity := 3, price := 1 }, by simp [shirtReq],
      shirt_rejected_three⟩
  ⟨h, (C4_rejected_request_no_mutation calm shop (shirtReq [1, 3]) h).2.2⟩

/-- C5 fails on the code: in the sample shop every stock is non-negative (2 pieces of the
only variant), a request with two line items of 2 pieces each for that variant passes
both availability checks, is answered 201, and leaves the stock at -2. -/
theorem C5_stock_goes_negative :
    StockNonneg shop.products ∧
    (createOrder calm shop (shirtReq [2, 2])).1 = .success 201 doubleOrder ∧
    stockOf (createOrder calm shop (shirtReq [2, 2])).2.products 1 mRed = some (-2) ∧
    ¬ StockNonneg (createOrder calm shop (shirtReq [2, 2])).2.products := by
  rw [createOrder_shirt_double]
  refine ⟨?_, rfl, ?_, ?_⟩
  · intro p hp v hv
    simp only [shop, List.mem_singleton] at hp
    subst hp
    simp only [shirt, List.mem_singleton] at hv
    subst hv
    norm_num
  · simp [stockOf, findProduct, shopOversold, shirt, mRed, variantMatches]
  · intro hn
    have := hn _ (List.mem_singleton_self _) { size := "M", color := "red", stock := -2, sku := "SH-M-RED" }
      (by simp [shirt])
    norm_num at this

/-- C6 fails on the code: in the boutique (one jacket, five pieces of each of the
variants (S, red), (S, blue), (M, red), (M, blue)) an order for two jackets (M, blue) is
answered 201, yet the stock of (M, blue) stays 5 although the order holds quantity 2 for
it: the update filter has one condition on the size and one on the colour, and the
positional operator lands on (M, red) when the size condition binds it and on (S, blue)
when the colour condition does, so another variant loses the two pieces. The stock-2
scenario does evaluate as stated in the sample shop, whose product has a single variant:
quantity 2 succeeds and leaves stock 0, then quantity 1 is refused and the stock stays 0. -/
theorem C6_wrong_variant_decremented :
    (∀ rule : Positional,
      (createOrder calm (boutique rule) jacketReq).1 = .success 201 jacketOrder ∧
      orderedQuantity jacketOrder.items 2 mBlue = 2 ∧
      stockOf (boutique rule).products 2 mBlue = some 5 ∧
      stockOf (createOrder calm (boutique rule) jacketReq).2.products 2 mBlue = some 5) ∧
    (createOrder calm (boutique .bySize) jacketReq).2 = boutiqueSold .bySize 5 5 3 5 ∧
    stockOf (createOrder calm (boutique .bySize) jacketReq).2.products 2 mRed = some 3 ∧
    (createOrder calm (boutique .byColor) jacketReq).2 = boutiqueSold .byColor 5 3 5 5 ∧
    stockOf (createOrder calm (boutique .byColor) jacketReq).2.products 2 sBlue = some 3 ∧
    (∀ rule : Positional,
      stockOf shop.products 1 mRed = some 2 ∧
      createOrder calm { shop with positional := rule } (shirtReq [2])
        = (.success 201 shirtOrder, { shopSold with positional := rule }) ∧
      stockOf shopSold.products 1 mRed = some 0 ∧
      createOrder calm { shopSold with positional := rule } (shirtReq [1])
        = (.error 400 "Insufficient stock for product Shirt",
           { shopSold with positional := rule })) := by
  have hq : orderedQuantity jacketOrder.items 2 mBlue = 2 := by
    simp [orderedQuantity, jacketOrder, buildOrder, jacketLine]
  have h1 : (createOrder calm (boutique .bySize) jacketReq).2 = boutiqueSold .bySize 5 5 3 5 := by
    rw [createOrder_jacket, decrementStock_jackets_bySize, boutiqueSold]
    norm_num
  have h2 : (createOrder calm (boutique .byColor) jacketReq).2
      = boutiqueSold .byColor 5 3 5 5 := by
    rw [createOrder_jacket, decrementStock_jackets_byColor, boutiqueSold]
    norm_num
  refine ⟨?_, h1, ?_, h2, ?_, ?_⟩
  · intro rule
    refine ⟨by rw [createOrder_jacket], hq, (stockOf_jackets 5 5 5 5).2.2, ?_⟩
    cases rule
    · rw [h1]; exact (stockOf_jackets 5 5 3 5).2.2
    · rw [h2]; exact (stockOf_jackets 5 3 5 5).2.2
  · rw [h1]; exact (stockOf_jackets 5 5 3 5).2.1
  · rw [h2]; exact (stockOf_jackets 5 3 5 5).1
  · intro rule
    refine ⟨stockOf_shop, ?_, stockOf_shopSold, ?_⟩
    · cases rule <;>
      · simp [createOrder, checkItems, findProduct, shop, shirt, shirtReq, mRed, variantMatches,
          attachPayment, validateOrder, calm, decrementStock, findOneAndUpdateStock,
          incVariantStock, filterMatches, boundBy, shirtOrder, shirtLine, buildOrder,
          paymentMethodEnum, paymentStatusEnum, orderStatusEnum, shopSold]
        norm_num
    · simp [createOrder, checkItems, findProduct, shopSold, shirt, shirtReq, mRed,
        variantMatches, insufficientStock]

/-- Counterexample to C7 as stated: the stored order is pending, yet `cancelOrder`
answers with an error (500) because the cancellation e-mail fails; by then the order has
been cancelled and the stock restored from 0 to 2. -/
theorem C7_counterexample :
    findOrder shopSold.orders 1 = some shirtOrder ∧ shirtOrder.status = "pending" ∧
    (cancelOrder mailDown shopSold 1 none).1 = .error 500 "email could not be sent" ∧
    (cancelOrder mailDown shopSold 1 none).1.isError = true ∧
    stockOf shopSold.products 1 mRed = some 0 ∧
    stockOf (cancelOrder mailDown shopSold 1 none).2.products 1 mRed = some 2 := by
  have hst : shirtOrder.status = "pending" := rfl
  rw [cancelOrder_applied findOrder_shopSold (Or.inl hst)]
  refine ⟨findOrder_shopSold, hst, rfl, rfl, stockOf_shopSold, ?_⟩
  show stockOf (restoreStock shopSold.positional shopSold.products shirtOrder.items) 1 mRed
    = some 2
  rw [restoreStock_shopSold]
  exact stockOf_shop

/-- C7 (amended): for every existing order, `cancelOrder` refuses with 400 "Order cannot
be cancelled at this stage" if and only if the status is neither pending nor confirmed,
and then the store (the order and every stock) is unchanged; for a pending or confirmed
order the answer is an error exactly when the cancellation e-mail fails. -/
theorem C7_cancel_refusal (env : Env) (s : Store) (id : Nat) (reason : Option String)
    (o : Order) (hf : findOrder s.orders id = some o) :
    ((cancelOrder env s id reason).1 = .error 400 "Order cannot be cancelled at this stage"
      ↔ ¬ (o.status = "pending" ∨ o.status = "confirmed")) ∧
    (¬ (o.status = "pending" ∨ o.status = "confirmed") → (cancelOrder env s id reason).2 = s) ∧
    ((o.status = "pending" ∨ o.status = "confirmed") →
      ((cancelOrder env s id reason).1.isError = true ↔ env.emailOk = false)) := by
  by_cases hst : o.status = "pending" ∨ o.status = "confirmed"
  · rw [cancelOrder_applied hf hst]
    refine ⟨?_, fun h => absurd hst h, fun _ => ?_⟩
    · constructor
      · intro h
        exfalso
        dsimp only at h
        split at h <;> simp at h
      · intro h; exact absurd hst h
    · dsimp only
      cases env.emailOk <;> simp [Response.isError]
  · rw [cancelOrder_refused hf hst]
    exact ⟨⟨fun _ => hst, fun _ => rfl⟩, fun _ => rfl, fun h => absurd h hst⟩

/-- Witness of C7 (amended): cancelling the shipped order is refused and changes
nothing. -/
theorem C7_cancel_refusal_witness :
    findOrder shopShipped.orders 1 = some { shirtOrder with status := "shipped" } ∧
    (cancelOrder calm shopShipped 1 none).1
      = .error 400 "Order cannot be cancelled at this stage" ∧
    (cancelOrder calm shopShipped 1 none).2 = shopShipped :=
  have hst : ¬ (({ shirtOrder with status := "shipped" } : Order).status = "pending" ∨
      ({ shirtOrder with status := "shipped" } : Order).status = "confirmed") := by
    simp
  ⟨findOrder_shopShipped,
    (C7_cancel_refusal calm shopShipped 1 none _ findOrder_shopShipped).1.mpr hst,
    (C7_cancel_refusal calm shopShipped 1 none _ findOrder_shopShipped).2.1 hst⟩

/-- C8 fails on the code: the boutique holds the pending order for two jackets (M, blue)
in the state `createOrder` left; cancelling it stores the order as cancelled with the
given reason, but the stock of (M, blue) stays 5 instead of growing by 2: the two pieces
are added to (M, red) when the size condition binds the positional operator and to
(S, blue) when the colour condition does. -/
theorem C8_wrong_variant_restored :
    (∀ (rule : Positional) (a b c d : ℚ),
      findOrder (boutiqueSold rule a b c d).orders 1 = some jacketOrder ∧
      jacketOrder.status = "pending" ∧
      orderedQuantity jacketOrder.items 2 mBlue = 2 ∧
      (cancelOrder calm (boutiqueSold rule a b c d) 1 (some "changed my mind")).1
        = .success 200
            { jacketOrder with status := "cancelled", cancelReason := some "changed my mind" } ∧
      findOrder (cancelOrder calm (boutiqueSold rule a b c d) 1 (some "changed my mind")).2.orders 1
        = some { jacketOrder with status := "cancelled", cancelReason := some "changed my mind" }) ∧
    stockOf (boutiqueSold .bySize 5 5 3 5).products 2 mBlue = some 5 ∧
    (cancelOrder calm (boutiqueSold .bySize 5 5 3 5) 1 (some "changed my mind")).2.products
      = jackets 5 5 5 5 ∧
    stockOf (cancelOrder calm (boutiqueSold .bySize 5 5 3 5) 1
      (some "changed my mind")).2.products 2 mBlue = some 5 ∧
    stockOf (boutiqueSold .byColor 5 3 5 5).products 2 mBlue = some 5 ∧
    (cancelOrder calm (boutiqueSold .byColor 5 3 5 5) 1 (some "changed my mind")).2.products
      = jackets 5 5 5 5 ∧
    stockOf (cancelOrder calm (boutiqueSold .byColor 5 3 5 5) 1
      (some "changed my mind")).2.products 2 mBlue = some 5 := by
  have hst : jacketOrder.status = "pending" := rfl
  have hq : orderedQuantity jacketOrder.items 2 mBlue = 2 := by
    simp [orderedQuantity, jacketOrder, buildOrder, jacketLine]
  have hitems : jacketOrder.items = [jacketLine] := rfl
  have h1 : (cancelOrder calm (boutiqueSold .bySize 5 5 3 5) 1
      (some "changed my mind")).2.products = jackets 5 5 5 5 := by
    rw [cancelOrder_applied (findOrder_boutiqueSold .bySize 5 5 3 5) (Or.inl hst)]
    show restoreStock .bySize (jackets 5 5 3 5) jacketOrder.items = jackets 5 5 5 5
    rw [hitems, restoreStock_jackets_bySize]
    norm_num
  have h2 : (cancelOrder calm (boutiqueSold .byColor 5 3 5 5) 1
      (some "changed my mind")).2.products = jackets 5 5 5 5 := by
    rw [cancelOrder_applied (findOrder_boutiqueSold .byColor 5 3 5 5) (Or.inl hst)]
    show restoreStock .byColor (jackets 5 3 5 5) jacketOrder.items = jackets 5 5 5 5
    rw [hitems, restoreStock_jackets_byColor]
    norm_num
  refine ⟨?_, (stockOf_jackets 5 5 3 5).2.2, h1, ?_, (stockOf_jackets 5 3 5 5).2.2, h2, ?_⟩
  · intro rule a b c d
    have hf := findOrder_boutiqueSold rule a b c d
    rw [cancelOrder_applied hf (Or.inl hst)]
    exact ⟨hf, hst, hq, rfl, findOrder_replaceOrder hf rfl⟩
  · rw [h1]; exact (stockOf_jackets 5 5 5 5).2.2
  · rw [h2]; exact (stockOf_jackets 5 5 5 5).2.2

/-- C9: when `createOrder` succeeds with an order id no stored order carries, the created
order is stored as pending under that id, and cancelling it (whatever the mailer does)
returns the catalog, hence the stock of every variant, to what it was before
`createOrder`. -/
theorem C9_cancel_restores_stock (env env' : Env) (s : Store) (req : CreateOrderReq)
    (code : Nat) (o : Order) (reason : Option String)
    (hfresh : ∀ x ∈ s.orders, x._id ≠ env.newOrderId)
    (h : (createOrder env s req).1 = .success code o) :
    findOrder (createOrder env s req).2.orders o._id = some o ∧ o.status = "pending" ∧
    (cancelOrder env' (createOrder env s req).2 o._id reason).2.products = s.products ∧
    (∀ id sel, stockOf (cancelOrder env' (createOrder env s req).2 o._id reason).2.products id sel
        = stockOf s.products id sel) := by
  obtain ⟨_, _, _, _, hid, hstatus, _, _, _, _, _, hs⟩ := createOrder_success h
  have hf : findOrder (createOrder env s req).2.orders o._id = some o := by
    rw [hs]
    exact findOrder_append_new (fun x hx => by rw [hid]; exact hfresh x hx)
  have hp : (cancelOrder env' (createOrder env s req).2 o._id reason).2.products
      = s.products := by
    rw [cancelOrder_applied hf (Or.inl hstatus), hs]
    exact restoreStock_decrementStock s.positional o.items s.products
  exact ⟨hf, hstatus, hp, fun id sel => by rw [hp]⟩

/-- Witness of C9: two shirts ordered in the sample shop and the order cancelled; the
catalog is the one before the order. -/
theorem C9_cancel_restores_stock_witness :
    (createOrder calm shop (shirtReq [2])).1 = .success 201 shirtOrder ∧
    (cancelOrder mailDown (createOrder calm shop (shirtReq [2])).2 shirtOrder._id none).2.products
      = shop.products :=
  ⟨createOrder_shirt_two_response,
    (C9_cancel_restores_stock calm mailDown shop (shirtReq [2]) 201 shirtOrder none
      (by intro x hx; simp [shop] at hx) createOrder_shirt_two_response).2.2.1⟩

/-- C10: when the product exists and its reviews already contain a review by the caller,
`addReview` answers 400 "You have already reviewed this product" and the store is
unchanged, so the product keeps its review list, rating average and rating count. -/
theorem C10_duplicate_review_rejected (env : Env) (s : Store) (user : User) (id : Nat)
    (rating : ℚ) (comment : String) (files : List String) (product : Product)
    (hp : findProduct s.products id = some product)
    (hdup : ∃ r ∈ product.reviews, r.user = user._id) :
    (addReview env s user id rating comment files).1
      = .error 400 "You have already reviewed this product" ∧
    (addReview env s user id rating comment files).2 = s ∧
    (∃ p, findProduct (addReview env s user id rating comment files).2.products id = some p ∧
      p.reviews = product.reviews ∧ p.ratings.average = product.ratings.average ∧
      p.ratings.count = product.ratings.count) := by
  have hfind : ∃ r, product.reviews.find? (fun review => review.user == user._id) = some r := by
    cases hr : product.reviews.find? (fun review => review.user == user._id) with
    | some r => exact ⟨r, rfl⟩
    | none =>
      exfalso
      rw [List.find?_eq_none] at hr
      obtain ⟨r, hmem, hu⟩ := hdup
      exact hr r hmem (by simpa using hu)
  obtain ⟨r, hr⟩ := hfind
  have hres : addReview env s user id rating comment files
      = (.error 400 "You have already reviewed this product", s) := by
    unfold addReview
    rw [hp]
    dsimp only
    rw [hr]
  rw [hres]
  exact ⟨rfl, rfl, product, hp, rfl, rfl, rfl⟩

/-- Witness of C10: `alice` reviews the shirt a second time. -/
theorem C10_duplicate_review_rejected_witness :
    findProduct shopReviewed.products 1 = some shirtReviewed ∧
    (∃ r ∈ shirtReviewed.reviews, r.user = alice._id) ∧
    (addReview calm shopReviewed alice 1 5 "again" []).2 = shopReviewed :=
  have hdup : ∃ r ∈ shirtReviewed.reviews, r.user = alice._id :=
    ⟨{ user := 7, rating := 4, comment := "fits well", images := [] },
      by simp [shirtReviewed], rfl⟩
  ⟨findProduct_shopReviewed, hdup,
    (C10_duplicate_review_rejected calm shopReviewed alice 1 5 "again" [] shirtReviewed
      findProduct_shopReviewed hdup).2.1⟩

/-- C11: `updateAverageRating` keeps the reviews, sets `ratings.count` to their number
and `ratings.average` to their arithmetic mean (sum of the ratings divided by their
number), and to average 0, count 0 when there is none; a successful `addReview` appends
exactly one review (the caller's) at the end of the product's list, leaves count and
average as just described, and stores that product. -/
theorem C11_rating_aggregate (env : Env) (s : Store) (user : User) (id : Nat) (rating : ℚ)
    (comment : String) (files : List String) (code : Nat) (p' : Product)
    (h : (addReview env s user id rating comment files).1 = .success code p') :
    (∀ p : Product,
      (updateAverageRating p).reviews = p.reviews ∧
      (updateAverageRating p).ratings.count = p.reviews.length ∧
      (updateAverageRating p).ratings.average
        = (p.reviews.map (fun r => r.rating)).sum / p.reviews.length ∧
      (p.reviews = [] → (updateAverageRating p).ratings = { average := 0, count := 0 })) ∧
    (∃ product images,
      findProduct s.products id = some product ∧
      p'.reviews = product.reviews ++
        [{ user := user._id, rating := rating, comment := comment, images := images }]) ∧
    p'.ratings.count = p'.reviews.length ∧
    p'.ratings.average = (p'.reviews.map (fun r => r.rating)).sum / p'.reviews.length ∧
    findProduct (addReview env s user id rating comment files).2.products id = some p' := by
  have hupd : ∀ p : Product,
      (updateAverageRating p).reviews = p.reviews ∧
      (updateAverageRating p).ratings.count = p.reviews.length ∧
      (updateAverageRating p).ratings.average
        = (p.reviews.map (fun r => r.rating)).sum / p.reviews.length ∧
      (p.reviews = [] → (updateAverageRating p).ratings = { average := 0, count := 0 }) := by
    intro p
    obtain ⟨h1, _, h3, h4, h5⟩ := updateAverageRating_spec p
    exact ⟨h1, h3, h4, h5⟩
  obtain ⟨product, images, hp, _, _, hp', _, hs⟩ := addReview_success h
  obtain ⟨h1, h2, h3, h4, _⟩ := updateAverageRating_spec
    { product with reviews := product.reviews ++
        [{ user := user._id, rating := rating, comment := comment, images := images }] }
  rw [← hp'] at h1 h2 h3 h4
  refine ⟨hupd, ⟨product, images, hp, h1⟩, ?_, ?_, ?_⟩
  · rw [h3, h1]
  · rw [h4, h1]; rfl
  · rw [hs]
    exact findProduct_replaceProduct hp h2

/-- Witness of C11: `alice` gives the unreviewed shirt five stars; it then has one review,
count 1 and average 5. -/
theorem C11_rating_aggregate_witness :
    (addReview calm shop alice 1 5 "great" []).1 = .success 200 shirtFiveStars ∧
    shirtFiveStars.ratings.count = shirtFiveStars.reviews.length ∧
    findProduct (addReview calm shop alice 1 5 "great" []).2.products 1 = some shirtFiveStars :=
  have h : (addReview calm shop alice 1 5 "great" []).1 = .success 200 shirtFiveStars := by
    rw [addReview_shirt]
  ⟨h, (C11_rating_aggregate calm shop alice 1 5 "great" [] 200 shirtFiveStars h).2.2.1,
    (C11_rating_aggregate calm shop alice 1 5 "great" [] 200 shirtFiveStars h).2.2.2.2⟩

/-- C12: when the gateway reports a payment status other than "succeeded",
`handlePaymentSuccess` answers with the error 'Payment not successful' and leaves the
store, hence the order, exactly as it was, so that no order is marked as paid for such a
payment. -/
theorem C12_payment_guard (env : Env) (s : Store) (paymentIntentId : String) (orderId : Nat)
    (intent : PaymentIntent) (hi : env.retrieveIntent = some intent)
    (hne : intent.status ≠ "succeeded") :
    handlePaymentSuccess env s paymentIntentId orderId
      = (.error 400 "Payment not successful", s) ∧
    findOrder (handlePaymentSuccess env s paymentIntentId orderId).2.orders orderId
      = findOrder s.orders orderId ∧
    (∀ o ∈ (handlePaymentSuccess env s paymentIntentId orderId).2.orders,
      o.status = "paid" → o ∈ s.orders) := by
  have h : handlePaymentSuccess env s paymentIntentId orderId
      = (.error 400 "Payment not successful", s) := by
    unfold handlePaymentSuccess
    rw [hi]
    have hb : (intent.status != "succeeded") = true := by simpa using hne
    simp only [hb, if_true]
  rw [h]
  exact ⟨rfl, rfl, fun o ho _ => ho⟩

/-- Witness of C12: the gateway reports "requires_payment_method" for the pending order
of the sample shop. -/
theorem C12_payment_guard_witness :
    gatewayUnpaid.retrieveIntent = some intentPending ∧
    intentPending.status ≠ "succeeded" ∧
    handlePaymentSuccess gatewayUnpaid shopSold "pi_1" 1
      = (.error 400 "Payment not successful", shopSold) :=
  have hne : intentPending.status ≠ "succeeded" := by decide
  ⟨rfl, hne, (C12_payment_guard gatewayUnpaid shopSold "pi_1" 1 intentPending rfl hne).1⟩

/-- C13 fails on the code: the gateway accepts refunds, the order of the sample shop
exists and is pending, yet `handleRefund` answers 400 and leaves the store as it was, so
the order is not marked refunded and no refund metadata is recorded; for every gateway,
store, order id and reason `handleRefund` answers with an error and changes nothing. -/
theorem C13_refund_never_recorded :
    gatewayPaid.createRefund = some { id := "re_1", amount := 128000 } ∧
    findOrder shopSold.orders 1 = some shirtOrder ∧ shirtOrder.status = "pending" ∧
    handleRefund gatewayPaid shopSold 1 "requested_by_customer"
      = (.error 400 "Cannot read properties of undefined", shopSold) ∧
    findOrder (handleRefund gatewayPaid shopSold 1 "requested_by_customer").2.orders 1
      = some shirtOrder ∧
    (∀ (env : Env) (s : Store) (id : Nat) (reason : String),
      (handleRefund env s id reason).2 = s ∧
      (handleRefund env s id reason).1.isError = true) := by
  refine ⟨rfl, findOrder_shopSold, rfl, handleRefund_shopSold, ?_, handleRefund_inert⟩
  rw [handleRefund_shopSold]
  exact findOrder_shopSold

/-- Counterexample to C14 as stated: an admin asks for the status "paid" on the pending
order of the sample shop; the answer is a 500 error and the stored order keeps its
status. -/
theorem C14_counterexample :
    root.role = "admin" ∧ findOrder shopSold.orders 1 = some shirtOrder ∧
    updateOrderStatus calm shopSold root 1 "paid"
      = (.error 500 "Order validation failed", shopSold) ∧
    (findOrder (updateOrderStatus calm shopSold root 1 "paid").2.orders 1).map (fun o => o.status)
      = some "pending" := by
  have h : updateOrderStatus calm shopSold root 1 "paid"
      = (.error 500 "Order validation failed", shopSold) :=
    updateOrderStatus_undeclared findOrder_shopSold
      (Or.inl (rfl : root.role = "admin")) paid_not_declared
  rw [h]
  exact ⟨rfl, findOrder_shopSold, rfl, by rw [findOrder_shopSold]; rfl⟩

/-- C14 (amended): for an existing order, whatever its current status, an admin or
seller who asks for one of the seven declared status values gets the stored order
overwritten with that status (no successor check, nothing else changes); a requested
string outside the declared values is rejected by the model's validation with a 500 and
the store is unchanged; any other role gets a 403 and the store is unchanged. -/
theorem C14_status_overwrite (env : Env) (s : Store) (user : User) (id : Nat)
    (status : String) (o : Order) (hf : findOrder s.orders id = some o) :
    ((user.role = "admin" ∨ user.role = "seller") → status ∈ orderStatusEnum →
      findOrder (updateOrderStatus env s user id status).2.orders id
        = some { o with status := status } ∧
      (updateOrderStatus env s user id status).2.products = s.products) ∧
    ((user.role = "admin" ∨ user.role = "seller") → status ∉ orderStatusEnum →
      updateOrderStatus env s user id status = (.error 500 "Order validation failed", s)) ∧
    (¬ (user.role = "admin" ∨ user.role = "seller") →
      updateOrderStatus env s user id status
        = (.error 403 "Not authorized to update order status", s)) := by
  refine ⟨?_, ?_, ?_⟩
  · intro hrole hst
    rw [updateOrderStatus_applied hf hrole hst]
    exact ⟨findOrder_replaceOrder hf rfl, rfl⟩
  · intro hrole hst
    exact updateOrderStatus_undeclared hf hrole hst
  · intro hrole
    exact updateOrderStatus_forbidden hf hrole

/-- Witness of C14 (amended): an admin sets the shipped order back to pending. -/
theorem C14_status_overwrite_witness :
    findOrder shopShipped.orders 1 = some { shirtOrder with status := "shipped" } ∧
    findOrder (updateOrderStatus calm shopShipped root 1 "pending").2.orders 1
      = some shirtOrder :=
  ⟨findOrder_shopShipped,
    ((C14_status_overwrite calm shopShipped root 1 "pending" _ findOrder_shopShipped).1
      (Or.inl rfl) (by decide)).1⟩

/-- C15: for an existing order `getOrder` answers 403 if and only if the caller is not
the owner and the caller's role is not admin, and otherwise answers with success and the
order; for a missing order it answers 404 whoever calls; it never changes the store. -/
theorem C15_getOrder_access (s : Store) (user : User) (id : Nat) (o : Order)
    (hf : findOrder s.orders id = some o) :
    ((getOrder s user id).1 = .error 403 "Not authorized to view this order"
      ↔ (o.user ≠ user._id ∧ user.role ≠ "admin")) ∧
    (¬ (o.user ≠ user._id ∧ user.role ≠ "admin") → (getOrder s user id).1 = .success 200 o) ∧
    (getOrder s user id).2 = s ∧
    (∀ (s' : Store) (caller : User) (id' : Nat), findOrder s'.orders id' = none →
      getOrder s' caller id' = (.error 404 "Order not found", s')) := by
  have h404 : ∀ (s' : Store) (caller : User) (id' : Nat), findOrder s'.orders id' = none →
      getOrder s' caller id' = (.error 404 "Order not found", s') := by
    intro s' caller id' hn
    unfold getOrder
    rw [hn]
  by_cases hc : o.user ≠ user._id ∧ user.role ≠ "admin"
  · have hb : (o.user != user._id && user.role != "admin") = true := by
      simp [hc.1, hc.2]
    have hres : getOrder s user id = (.error 403 "Not authorized to view this order", s) := by
      unfold getOrder
      rw [hf]
      simp only [hb, if_true]
    rw [hres]
    exact ⟨⟨fun _ => hc, fun _ => rfl⟩, fun h => absurd hc h, rfl, h404⟩
  · have hb : (o.user != user._id && user.role != "admin") = false := by
      rw [Bool.eq_false_iff]
      intro hh
      simp only [Bool.and_eq_true, bne_iff_ne, ne_eq] at hh
      exact hc hh
    have hres : getOrder s user id = (.success 200 o, s) := by
      unfold getOrder
      rw [hf]
      simp only [hb, Bool.false_eq_true, if_false]
    rw [hres]
    refine ⟨⟨fun h => ?_, fun h => absurd h hc⟩, fun _ => rfl, rfl, h404⟩
    cases h

/-- Witness of C15: `alice` owns the order of the sample shop and reads it. -/
theorem C15_getOrder_access_witness :
    findOrder shopSold.orders 1 = some shirtOrder ∧
    (getOrder shopSold alice 1).1 = .success 200 shirtOrder :=
  ⟨findOrder_shopSold,
    (C15_getOrder_access shopSold alice 1 shirtOrder findOrder_shopSold).2.1
      (fun h => h.1 rfl)⟩

/-- C16: when `createOrder` succeeds for a request, it succeeds for the same request with
any other coupon code, against the same store and environment, with the same order up to
`couponCode`: same subtotal, tax, shipping cost, discount and total, the discount being
0, and the same stock afterwards. -/
theorem C16_coupon_no_effect (env : Env) (s : Store) (req : CreateOrderReq)
    (coupon : Option String) (code : Nat) (o : Order)
    (h : (createOrder env s req).1 = .success code o) :
    (createOrder env s { req with couponCode := coupon }).1
      = .success code { o with couponCode := coupon } ∧
    moneyFields { o with couponCode := coupon } = moneyFields o ∧
    o.discount = 0 ∧ ({ o with couponCode := coupon } : Order).discount = 0 ∧
    (createOrder env s { req with couponCode := coupon }).2.products
      = (createOrder env s req).2.products := by
  obtain ⟨hcode, hmail, _, _, _, _, _, _, _, hdisc, _, _⟩ := createOrder_success h
  rcases createOrder_cases env s req with ⟨_, he, _⟩ | ⟨sub, items, o', hc, ha, hv, hs, hr⟩
  · rw [h] at he; cases he
  · rw [hr, hmail] at h
    simp only [if_true, Response.success.injEq] at h
    obtain ⟨_, rfl⟩ := h
    have h2 := createOrder_branches env s { req with couponCode := coupon } sub items
      { o' with couponCode := coupon } hc (attachPayment_coupon coupon ha) hv
    rw [h2, hs, hmail, hcode]
    exact ⟨rfl, rfl, hdisc, hdisc, rfl⟩

/-- Witness of C16: the order for two shirts placed with the coupon "WELCOME10". -/
theorem C16_coupon_no_effect_witness :
    (createOrder calm shop (shirtReq [2])).1 = .success 201 shirtOrder ∧
    (createOrder calm shop { shirtReq [2] with couponCode := some "WELCOME10" }).1
      = .success 201 { shirtOrder with couponCode := some "WELCOME10" } :=
  ⟨createOrder_shirt_two_response,
    (C16_coupon_no_effect calm shop (shirtReq [2]) (some "WELCOME10") 201 shirtOrder
      createOrder_shirt_two_response).1⟩

/-- C17: when a request succeeds with a working mailer, the same request with a failing
mailer is answered with a 500 error while the store is the one of the successful run:
the order is persisted and the stock of its line items is decremented. -/
theorem C17_mail_failure_no_rollback (env : Env) (s : Store) (req : CreateOrderReq)
    (code : Nat) (o : Order)
    (h : (createOrder { env with emailOk := true } s req).1 = .success code o) :
    createOrder { env with emailOk := false } s req
      = (.error 500 "email could not be sent",
         { s with products := decrementStock s.positional s.products o.items,
                  orders := s.orders ++ [o] }) ∧
    (createOrder { env with emailOk := false } s req).2
      = (createOrder { env with emailOk := true } s req).2 ∧
    o ∈ (createOrder { env with emailOk := false } s req).2.orders ∧
    (createOrder { env with emailOk := false } s req).2.products
      = decrementStock s.positional s.products o.items ∧
    (∀ id sel, stockOf (createOrder { env with emailOk := false } s req).2.products id sel
        = stockOf (createOrder { env with emailOk := true } s req).2.products id sel) := by
  rcases createOrder_cases { env with emailOk := true } s req with
    ⟨_, he, _⟩ | ⟨sub, items, o', hc, ha, hv, hs, hr⟩
  · rw [h] at he; cases he
  · rw [hr] at h
    simp only [if_true, Response.success.injEq] at h
    obtain ⟨_, rfl⟩ := h
    have hitems : o'.items = items := (attachPayment_some ha).2.1
    have h2 := createOrder_branches { env with emailOk := false } s req sub items o' hc ha hv
    simp only [Bool.false_eq_true, if_false] at h2
    rw [h2, hs, hitems]
    exact ⟨rfl, rfl, by simp, rfl, fun _ _ => rfl⟩

/-- Witness of C17: two shirts ordered while the mailer is down; the answer is an error,
the order is stored and the stock is 0. -/
theorem C17_mail_failure_no_rollback_witness :
    (createOrder { mailDown with emailOk := true } shop (shirtReq [2])).1
      = .success 201 shirtOrder ∧
    createOrder { mailDown with emailOk := false } shop (shirtReq [2])
      = (.error 500 "email could not be sent",
         { shop with products := decrementStock shop.positional shop.products shirtOrder.items,
                     orders := shop.orders ++ [shirtOrder] }) :=
  ⟨createOrder_shirt_two_response,
    (C17_mail_failure_no_rollback mailDown shop (shirtReq [2]) 201 shirtOrder
      createOrder_shirt_two_response).1⟩

/-- C18: the line items of an order created by `createOrder` match the request items one
by one, in order, with the same product, variant and quantity, and carry the price of
the catalog product found for the item; the prices sent in the request do not influence
`createOrder` at all; and the five lifecycle handlers leave the line items (hence their
prices) of every stored order as they were. -/
theorem C18_price_snapshot (env : Env) (s : Store) (req : CreateOrderReq) (code : Nat)
    (o : Order) (h : (createOrder env s req).1 = .success code o) :
    List.Forall₂ (fun (it : ReqItem) (li : OrderItem) =>
        li.product = it.product ∧ li.variant = it.variant ∧ li.quantity = it.quantity ∧
        ∃ p, findProduct s.products it.product = some p ∧ li.price = p.price)
      req.items o.items ∧
    (∀ f : ReqItem → ℚ,
      createOrder env s { req with items := req.items.map (fun it => { it with price := f it }) }
        = createOrder env s req) ∧
    (∀ (e : Env) (t : Store),
      (∀ user id status, (updateOrderStatus e t user id status).2.orders.map (fun x => x.items)
          = t.orders.map (fun x => x.items)) ∧
      (∀ id reason, (cancelOrder e t id reason).2.orders.map (fun x => x.items)
          = t.orders.map (fun x => x.items)) ∧
      (∀ intent id, (handlePaymentSuccess e t intent id).2.orders.map (fun x => x.items)
          = t.orders.map (fun x => x.items)) ∧
      (∀ id msg, (handlePaymentFailure e t id msg).2.orders.map (fun x => x.items)
          = t.orders.map (fun x => x.items)) ∧
      (∀ id reason, (handleRefund e t id reason).2.orders.map (fun x => x.items)
          = t.orders.map (fun x => x.items))) := by
  obtain ⟨_, _, _, hall, _⟩ := createOrder_success h
  refine ⟨?_, ?_, ?_⟩
  · refine List.Forall₂.imp ?_ hall
    intro it li hchk
    obtain ⟨h1, h2, h3, h4, _⟩ := stockOf_of_itemChecked hchk
    exact ⟨h1, h2, h3, h4⟩
  · intro f
    unfold createOrder
    dsimp only
    rw [checkItems_price]
    rfl
  · intro e t
    refine ⟨fun user id status => updateOrderStatus_items e t user id status,
      fun id reason => cancelOrder_items e t id reason, ?_, ?_, ?_⟩
    · intro intent id
      rw [(handlePaymentSuccess_inert e t intent id).1]
    · intro id msg
      rw [(handlePaymentFailure_inert e t id msg).1]
    · intro id reason
      rw [(handleRefund_inert e t id reason).1]

/-- Witness of C18: the request for two shirts names the price 1, the line item carries
the catalog price 500. -/
theorem C18_price_snapshot_witness :
    (createOrder calm shop (shirtReq [2])).1 = .success 201 shirtOrder ∧
    (shirtReq [2]).items.map (fun it => it.price) = [1] ∧
    shirtOrder.items.map (fun li => li.price) = [500] ∧
    List.Forall₂ (fun (it : ReqItem) (li : OrderItem) =>
        li.product = it.product ∧ li.variant = it.variant ∧ li.quantity = it.quantity ∧
        ∃ p, findProduct shop.products it.product = some p ∧ li.price = p.price)
      (shirtReq [2]).items shirtOrder.items :=
  ⟨createOrder_shirt_two_response, rfl, rfl,
    (C18_price_snapshot calm shop (shirtReq [2]) 201 shirtOrder
      createOrder_shirt_two_response).1⟩

/-- C19 fails on the code: `createOrder` and `cancelOrder` write 'pending' and
'cancelled', which the Order model declares, but `handlePaymentSuccess`,
`handlePaymentFailure` and `handleRefund` write 'paid', 'payment_failed' and 'refunded',
none of which is among the seven declared values; for the pending order of the sample
shop and a payment the gateway reports as succeeded, `save()` therefore rejects the
document and the handler answers with an error. -/
theorem C19_undeclared_status_written :
    (∀ env req sub items, (buildOrder env req sub items).status ∈ orderStatusEnum) ∧
    (∀ reason o, (cancelledOrder reason o).status ∈ orderStatusEnum) ∧
    (∀ pid intent o, (paidOrder pid intent o).status = "paid") ∧
    "paid" ∉ orderStatusEnum ∧
    (∀ msg o, (paymentFailedOrder msg o).status = "payment_failed") ∧
    "payment_failed" ∉ orderStatusEnum ∧
    (∀ details refund reason o, (refundedOrder details refund reason o).status = "refunded") ∧
    "refunded" ∉ orderStatusEnum ∧
    handlePaymentSuccess gatewayPaid shopSold "pi_1" 1
      = (.error 400 "Order validation failed", shopSold) :=
  ⟨fun _ _ _ _ => (by decide : "pending" ∈ orderStatusEnum),
    fun _ _ => (by decide : "cancelled" ∈ orderStatusEnum), fun _ _ _ => rfl, paid_not_declared,
    fun _ _ => rfl, payment_failed_not_declared, fun _ _ _ _ => rfl, refunded_not_declared,
    handlePaymentSuccess_shopSold⟩

/-- C20: for a limit of at least 1, any window and any sequence of requests in which the
arrival times of `ip` do not decrease, a further request of `ip` is rejected exactly when
`limit` admitted requests of `ip` are later than `now - timeWindow` (there are never
more); a rejected request
is not recorded (the entry keeps only the earlier timestamps still in the window, and
every recorded timestamp belongs to an admitted request); and no interval
`(t - timeWindow, t]` ever holds more than `limit` admitted requests of `ip`. -/
theorem C20_rate_limit (limit : Nat) (w : Int) (ip : String) (pre : List Hit) (now : Int)
    (hl : 1 ≤ limit)
    (hs : (arrivalTimes (pre ++ [⟨ip, now⟩]) ip).Pairwise (fun a b => a ≤ b)) :
    ((rateLimiter limit w (runLimiter limit w pre).1 ip now).1 = false ↔
      limit ≤ (inWindow w now (admittedTimes limit w pre ip)).length) ∧
    ((rateLimiter limit w (runLimiter limit w pre).1 ip now).1 = false ↔
      (inWindow w now (admittedTimes limit w pre ip)).length = limit) ∧
    ((rateLimiter limit w (runLimiter limit w pre).1 ip now).1 = false →
      admittedTimes limit w (pre ++ [⟨ip, now⟩]) ip = admittedTimes limit w pre ip ∧
      ∀ ts, (runLimiter limit w pre).1 ip = some ts →
        (runLimiter limit w (pre ++ [⟨ip, now⟩])).1 ip = some (inWindow w now ts)) ∧
    (∀ ts, (runLimiter limit w (pre ++ [⟨ip, now⟩])).1 ip = some ts →
      ts.Sublist (admittedTimes limit w (pre ++ [⟨ip, now⟩]) ip)) ∧
    (∀ t, countIn w t (admittedTimes limit w (pre ++ [⟨ip, now⟩]) ip) ≤ limit) := by
  have hinv := limiterInv_holds limit w ip hl (pre ++ [⟨ip, now⟩]) hs
  rw [arrivalTimes_snoc, if_pos rfl] at hs
  have hpre : (arrivalTimes pre ip).Pairwise (fun a b => a ≤ b) :=
    (List.pairwise_append.mp hs).1
  have hlast : ∀ t ∈ arrivalTimes pre ip, t ≤ now :=
    fun t ht => (List.pairwise_append.mp hs).2.2 t ht now (by simp)
  have hinvPre := limiterInv_holds limit w ip hl pre hpre
  unfold LimiterInv at hinv hinvPre
  obtain ⟨hm, hc⟩ := hinv
  obtain ⟨hmPre, hcPre⟩ := hinvPre
  have hbound : (inWindow w now (admittedTimes limit w pre ip)).length ≤ limit := by
    rw [inWindow_length_eq_countIn w now _
      (fun t ht => hlast t ((admittedTimes_sublist limit w pre ip).subset ht))]
    exact hcPre now
  have hcrit : (rateLimiter limit w (runLimiter limit w pre).1 ip now).1 = false ↔
      limit ≤ (inWindow w now (admittedTimes limit w pre ip)).length := by
    cases hentry : (runLimiter limit w pre).1 ip with
    | none =>
      rw [hentry] at hmPre
      have h1 := (serve_first limit w (runLimiter limit w pre) ⟨ip, now⟩ hentry).1
      dsimp only at h1
      rw [h1, hmPre.2]
      simp [inWindow]
      omega
    | some ts =>
      rw [hentry] at hmPre
      rw [← hmPre.2 now hlast]
      by_cases hfull : limit ≤ (inWindow w now ts).length
      · have h1 := (serve_rejected limit w (runLimiter limit w pre) ⟨ip, now⟩ ts hentry hfull).1
        dsimp only at h1
        rw [h1]
        simp [hfull]
      · have h1 := (serve_admitted limit w (runLimiter limit w pre) ⟨ip, now⟩ ts hentry
          (Nat.lt_of_not_le hfull)).1
        dsimp only at h1
        rw [h1]
        simp [hfull]
  refine ⟨hcrit, hcrit.trans ⟨fun h => le_antisymm hbound h, fun h => h.ge⟩, ?_, ?_, hc⟩
  · intro hrej
    have hfalse : (serve limit w (runLimiter limit w pre) ⟨ip, now⟩).2
        = (runLimiter limit w pre).2 := by
      unfold serve
      dsimp only
      rw [hrej]
      simp
    refine ⟨?_, ?_⟩
    · rw [admittedTimes_snoc, hfalse]
      rfl
    · intro ts hentry
      rw [runLimiter_snoc]
      have hfull : limit ≤ (inWindow w now ts).length := by
        by_contra hnot
        have h1 := (serve_admitted limit w (runLimiter limit w pre) ⟨ip, now⟩ ts hentry
          (Nat.lt_of_not_le hnot)).1
        dsimp only at h1
        rw [h1] at hrej
        cases hrej
      exact (serve_rejected limit w (runLimiter limit w pre) ⟨ip, now⟩ ts hentry hfull).2.1
  · intro ts hentry
    rw [hentry] at hm
    exact hm.1

/-- Witness of C20: with limit 2 and a window of 1000 ms, the requests at 0 and 100 are
admitted and the request at 200 is rejected. -/
theorem C20_rate_limit_witness :
    (arrivalTimes burst "10.0.0.1").Pairwise (fun a b => a ≤ b) ∧
    admittedTimes 2 1000 (burst.take 2) "10.0.0.1" = [0, 100] ∧
    (rateLimiter 2 1000 (runLimiter 2 1000 (burst.take 2)).1 "10.0.0.1" 200).1 = false ∧
    admittedTimes 2 1000 burst "10.0.0.1" = [0, 100] :=
  have hs : (arrivalTimes (burst.take 2 ++ [⟨"10.0.0.1", 200⟩]) "10.0.0.1").Pairwise
      (fun a b => a ≤ b) := by decide
  have hadm : admittedTimes 2 1000 (burst.take 2) "10.0.0.1" = [0, 100] := by decide
  have h := C20_rate_limit 2 1000 "10.0.0.1" (burst.take 2) 200 (by decide) hs
  have hrej : (rateLimiter 2 1000 (runLimiter 2 1000 (burst.take 2)).1 "10.0.0.1" 200).1
      = false := h.1.mpr (by rw [hadm]; decide)
  ⟨hs, hadm, hrej, (h.2.2.1 hrej).1.trans hadm⟩

/-- C21: two `cancelOrder` requests with the same order id and reason, run in the same
environment on the same store, give the same answer and the same store (orders and
stock), whoever the two callers are; in particular a pending or confirmed order is
cancelled and its stock restored for any caller, owner or not, whatever the role. -/
theorem C21_cancel_ignores_caller (env : Env) (s : Store) (r1 r2 : CancelOrderReq)
    (hid : r1.id = r2.id) (hreason : r1.reason = r2.reason) :
    cancelOrderRoute env s r1 = cancelOrderRoute env s r2 ∧
    (∀ o, findOrder s.orders r1.id = some o → (o.status = "pending" ∨ o.status = "confirmed") →
      findOrder (cancelOrderRoute env s r2).2.orders r1.id
        = some { o with status := "cancelled", cancelReason := r1.reason } ∧
      (cancelOrderRoute env s r2).2.products
        = restoreStock s.positional s.products o.items) := by
  refine ⟨?_, ?_⟩
  · unfold cancelOrderRoute
    rw [hid, hreason]
  · intro o hf hst
    unfold cancelOrderRoute
    rw [← hid, ← hreason, cancelOrder_applied hf hst]
    exact ⟨findOrder_replaceOrder hf rfl, rfl⟩

/-- Witness of C21: `mallory`, a customer who does not own the order for two shirts,
cancels it with the same outcome as its owner `alice`: the stock is back at 2. -/
theorem C21_cancel_ignores_caller_witness :
    shirtOrder.user = alice._id ∧ mallory._id ≠ shirtOrder.user ∧ mallory.role = "customer" ∧
    cancelOrderRoute calm shopSold { user := alice, id := 1, reason := none }
      = cancelOrderRoute calm shopSold { user := mallory, id := 1, reason := none } ∧
    (cancelOrderRoute calm shopSold { user := mallory, id := 1, reason := none }).2.products
      = shop.products :=
  have h := C21_cancel_ignores_caller calm shopSold { user := alice, id := 1, reason := none }
    { user := mallory, id := 1, reason := none } rfl rfl
  ⟨rfl, by decide, rfl, h.1,
    ((h.2 shirtOrder findOrder_shopSold (Or.inl rfl)).2).trans restoreStock_shopSold⟩

end StyleHub
